import Mathlib

/-!
Verification development for the Kanta MCP server (TypeScript repository
`kanta-mcp-server`).  The repository is a protocol-translation shim: zod
schemas validate requests/responses, per-resource tool handlers validate
arguments and call a `KantaClient`, and a dispatcher routes tool names and
normalizes errors.  This file shallowly embeds the schema layer
(`src/types.ts`), the tool handlers (`src/tools/*.ts`), the dispatcher and
error normalization (`src/index.ts`), and the MCP resource handlers, and
proves properties about them.

Conventions of the embedding:
* JSON values are the inductive `Json`; JavaScript numbers are modelled as
  `Int` (all values exercised here are integers).
* `await client.X(...)` call sites are modelled by consulting a `ClientStub`
  and appending a `RemoteCall` to an explicit trace, so "no network call was
  made" is the statement that the trace is empty.
* `zod`'s `z.string().uuid()` is an external-library check; it is modelled
  from the repository's documented contract as the standard 8-4-4-4-12
  hyphenated-hex layout.  The resource-URI UUID regex
  `/^[0-9a-f]{8}-[0-9a-f]{4}-4[0-9a-f]{3}-[89ab][0-9a-f]{3}-[0-9a-f]{12}$/i`
  appears verbatim in the source and is embedded exactly.
-/

/-- JSON values; numbers restricted to integers (all numeric data exercised
by the embedded code is integral). -/
inductive Json where
  | null : Json
  | bool (b : Bool) : Json
  | num (n : Int) : Json
  | str (s : String) : Json
  | arr (elems : List Json) : Json
  | obj (fields : List (String × Json)) : Json

/-- Field lookup on a JSON object (first occurrence); `none` when the value
is not an object or the key is missing, mirroring `obj[key] === undefined`. -/
def Json.lookup : Json → String → Option Json
  | .obj fields, key => fields.lookup key
  | _, _ => none

/-- `true` iff the character is a hexadecimal digit (either case). -/
def isHexDigit (c : Char) : Bool :=
  c.isDigit || ('a' ≤ c && c ≤ 'f') || ('A' ≤ c && c ≤ 'F')

/-- Indices of the four hyphens in the 8-4-4-4-12 UUID layout. -/
def uuidDashIdx : List Nat := [8, 13, 18, 23]

/-- Indices of the 32 hex digits in the 8-4-4-4-12 UUID layout. -/
def uuidHexIdx : List Nat :=
  [0, 1, 2, 3, 4, 5, 6, 7, 9, 10, 11, 12, 14, 15, 16, 17, 19, 20, 21, 22,
   24, 25, 26, 27, 28, 29, 30, 31, 32, 33, 34, 35]

/-- Modelled from the spec: `z.string().uuid()` (zod is an external library;
the repository's documented contract is "UUID fields must match the standard
8-4-4-4-12 hyphenated hex layout").  Used by every UUID-typed tool argument. -/
def uuidCheck (s : String) : Bool :=
  let cs := s.data
  cs.length == 36
    && uuidDashIdx.all (fun i => cs.getD i ' ' == '-')
    && uuidHexIdx.all (fun i => isHexDigit (cs.getD i ' '))

/-- The hex-digit indices of the resource-URI regex that carry no extra
constraint (all positions except the version nibble 14 and variant nibble 19). -/
def resourceHexIdx : List Nat :=
  [0, 1, 2, 3, 4, 5, 6, 7, 9, 10, 11, 12, 15, 16, 17, 20, 21, 22,
   24, 25, 26, 27, 28, 29, 30, 31, 32, 33, 34, 35]

/-- The UUID pattern used by the `kanta://customer/{id}/risk-summary`
resource handler, embedded from the source regex
`/^[0-9a-f]{8}-[0-9a-f]{4}-4[0-9a-f]{3}-[89ab][0-9a-f]{3}-[0-9a-f]{12}$/i`:
position 14 must be the literal `4` and position 19 one of `8/9/a/b`
(case-insensitively). -/
def resourceUuidCheck (s : String) : Bool :=
  let cs := s.data
  cs.length == 36
    && uuidDashIdx.all (fun i => cs.getD i ' ' == '-')
    && resourceHexIdx.all (fun i => isHexDigit (cs.getD i ' '))
    && cs.getD 14 ' ' == '4'
    && [('8' : Char), '9', 'a', 'b', 'A', 'B'].any (fun c => cs.getD 19 ' ' == c)

/-- `DateSchema = z.string().regex(/^\d{4}-\d{2}-\d{2}$/)` from `src/types.ts`. -/
def dateCheck (s : String) : Bool :=
  let cs := s.data
  cs.length == 10
    && [(4 : Nat), 7].all (fun i => cs.getD i ' ' == '-')
    && [(0 : Nat), 1, 2, 3, 5, 6, 8, 9].all (fun i => (cs.getD i ' ').isDigit)

/-- Modelled from the spec: `z.string().email()` (zod is an external
library; its exact email regex is not part of this repository).  Only used
as a pass-through guard, so the embedding checks the essential shape:
a single `@` with nonempty text on both sides. -/
def emailCheck (s : String) : Bool :=
  let cs := s.data
  (cs.filter (fun c => c == '@')).length == 1
    && !(cs.headD '@' == '@') && !(cs.getLastD '@' == '@')

/-- `s.startsWith(p)` on the underlying character lists. -/
def strStarts (s pat : String) : Bool := pat.data.isPrefixOf s.data

/-- Infix (substring) search on character lists; `pat` occurs somewhere in `l`. -/
def listContainsSub (pat : List Char) : List Char → Bool
  | [] => pat.isEmpty
  | l@(_ :: t) => pat.isPrefixOf l || listContainsSub pat t

/-- `s.includes(pat)` on the underlying character lists. -/
def strContains (s pat : String) : Bool := listContainsSub pat.data s.data

-- Sanity checks for the string helpers (used pervasively below).
example : uuidCheck "123e4567-e89b-12d3-a456-426614174000" = true := by decide
example : uuidCheck "not-a-uuid" = false := by decide
example : resourceUuidCheck "123e4567-e89b-42d3-a456-426614174000" = true := by decide
example : resourceUuidCheck "00000000-0000-0000-0000-000000000000" = false := by decide
example : uuidCheck "00000000-0000-0000-0000-000000000000" = true := by decide
example : dateCheck "2024-01-31" = true := by decide
example : dateCheck "2024-1-31" = false := by decide
example : strStarts "get_customer" "get_customers" = false := by decide
example : strStarts "get_customer" "get_customer" = true := by decide
example : strContains "foo_bar" "customer" = false := by decide
example : strContains "my_customer_tool" "customer" = true := by decide

/-! ## Schema layer (`src/types.ts`)

`RiskLevelSchema = z.enum(['low', 'medium', 'high', 'not_established', 'Low',
'Medium', 'High', 'standard', 'enhanced']).transform(val => val.toLowerCase())`.
Nullable fields are `Option`, nullable-and-optional fields are `Tri`
(absent / null / value), matching zod's distinction between a missing key and
an explicit `null`. -/

/-- A field that is both `.nullable()` and `.optional()` in zod: it can be
missing, explicitly `null`, or carry a value. -/
inductive Tri (α : Type) where
  | absent : Tri α
  | null : Tri α
  | val (a : α) : Tri α

def Tri.map (f : α → β) : Tri α → Tri β
  | .absent => .absent
  | .null => .null
  | .val a => .val (f a)

@[simp] theorem Tri.map_id {α : Type} (t : Tri α) : t.map id = t := by
  cases t <;> rfl

/-- Apply a fallible field parser under `.nullable()` (`Option`). -/
def optParse (f : α → Option β) : Option α → Option (Option β)
  | none => some none
  | some a => (f a).map some

/-- Apply a fallible field parser under `.nullable().optional()` (`Tri`). -/
def triParse (f : α → Option β) : Tri α → Option (Tri β)
  | .absent => some .absent
  | .null => some .null
  | .val a => (f a).map .val

/-- A zod refinement such as `.uuid()`, `.email()` or `.regex(...)`: the value
passes through unchanged when the check holds. -/
def zGuard (check : α → Bool) (a : α) : Option α :=
  if check a then some a else none

/-- The nine tokens accepted by `RiskLevelSchema`'s `z.enum([...])`. -/
def riskTokens : List String :=
  ["low", "medium", "high", "not_established", "Low", "Medium", "High",
   "standard", "enhanced"]

/-- The canonical lowercase risk vocabulary (image of the transform). -/
def canonicalRiskTokens : List String :=
  ["low", "medium", "high", "not_established", "standard", "enhanced"]

/-- ASCII lowercasing of a string, as `String.prototype.toLowerCase` acts on
the (ASCII) risk tokens. -/
def strToLower (s : String) : String := String.mk (s.data.map Char.toLower)

/-- `RiskLevelSchema`: enum membership check followed by the
`toLowerCase()` transform. -/
def RiskLevelSchema_parse (s : String) : Option String :=
  if s ∈ riskTokens then some (strToLower s) else none

/-- `CustomerStateSchema = z.enum(['draft','in_progress','valid','ended','to_validate'])`. -/
def stateTokens : List String :=
  ["draft", "in_progress", "valid", "ended", "to_validate"]

def CustomerStateSchema_parse (s : String) : Option String :=
  if s ∈ stateTokens then some s else none

theorem zGuard_eq {check : α → Bool} {a b : α} (h : zGuard check a = some b) :
    b = a := by
  unfold zGuard at h
  split at h
  · exact (Option.some.injEq _ _ ▸ h).symm
  · exact absurd h (by simp)

theorem riskParse_eq_lower {s r : String} (h : RiskLevelSchema_parse s = some r) :
    r = strToLower s := by
  unfold RiskLevelSchema_parse at h
  split at h
  · exact (Option.some.injEq _ _ ▸ h).symm
  · exact absurd h (by simp)

theorem riskParse_canonical {s r : String} (h : RiskLevelSchema_parse s = some r) :
    r ∈ canonicalRiskTokens := by
  unfold RiskLevelSchema_parse at h
  split at h
  case isTrue hmem =>
    obtain rfl : strToLower s = r := by simpa using h
    simp only [riskTokens, List.mem_cons, List.not_mem_nil, or_false] at hmem
    rcases hmem with rfl | rfl | rfl | rfl | rfl | rfl | rfl | rfl | rfl <;> decide
  case isFalse => exact absurd h (by simp)

theorem stateParse_eq {s r : String} (h : CustomerStateSchema_parse s = some r) :
    r = s := by
  unfold CustomerStateSchema_parse at h
  split at h
  · exact (Option.some.injEq _ _ ▸ h).symm
  · exact absurd h (by simp)

theorem optParse_norm {f : α → Option β} {g : α → β}
    (hf : ∀ a b, f a = some b → b = g a) :
    ∀ {o : Option α} {o' : Option β}, optParse f o = some o' → o' = o.map g := by
  intro o o' h
  cases o with
  | none => simpa [optParse] using h.symm
  | some a =>
    simp only [optParse, Option.map_eq_some'] at h
    obtain ⟨b, hb, rfl⟩ := h
    simp [hf a b hb]

theorem triParse_norm {f : α → Option β} {g : α → β}
    (hf : ∀ a b, f a = some b → b = g a) :
    ∀ {t : Tri α} {t' : Tri β}, triParse f t = some t' → t' = t.map g := by
  intro t t' h
  cases t with
  | absent => simpa [triParse, Tri.map] using h.symm
  | null => simpa [triParse, Tri.map] using h.symm
  | val a =>
    simp only [triParse, Option.map_eq_some'] at h
    obtain ⟨b, hb, rfl⟩ := h
    simp [Tri.map, hf a b hb]

/-- Elementwise parse of a `z.array(...)` field: fails iff any element fails. -/
def mapMOpt (f : α → Option β) : List α → Option (List β)
  | [] => some []
  | x :: xs => do
      let y ← f x
      let ys ← mapMOpt f xs
      pure (y :: ys)

theorem mapMOpt_norm {f : α → Option β} {g : α → β}
    (hf : ∀ a b, f a = some b → b = g a) :
    ∀ {l : List α} {l' : List β}, mapMOpt f l = some l' → l' = l.map g := by
  intro l
  induction l with
  | nil => intro l' h; simpa [mapMOpt] using h.symm
  | cons x xs ih =>
    intro l' h
    unfold mapMOpt at h
    cases hy : f x with
    | none => simp [hy] at h
    | some y =>
      cases hys : mapMOpt f xs with
      | none => simp [hy, hys] at h
      | some ys =>
        simp only [hy, hys] at h
        obtain rfl : y :: ys = l' := by simpa using h
        simp [List.map_cons, hf x y hy, ih hys]

/-! Entity structures mirroring `src/types.ts` field-for-field.  Risk-level
fields are raw `String` tokens on input; a successful parse returns the same
structure with the risk tokens normalized. -/

/-- `CountryResourceSchema = z.object({ label: z.string(), risk: RiskLevelSchema })`. -/
structure Country where
  label : String
  risk : String

/-- `AddressAreaResourceSchema = z.object({ label: z.string(), risk: RiskLevelSchema })`. -/
structure AddressArea where
  label : String
  risk : String

/-- `CustomerAddressResourceSchema`. -/
structure CustomerAddress where
  street : String
  zip_code : String
  city : String
  country : Country
  is_headquarter : Bool
  address_area : Option AddressArea
  additional_information : Tri String

/-- `PersonAddressResourceSchema` (all location fields nullable). -/
structure PersonAddress where
  street : Option String
  zip_code : Option String
  city : Option String
  country : Option Country
  is_main_residence : Bool
  address_area : Option AddressArea
  additional_information : Tri String

/-- `ActivityResourceSchema`. -/
structure Activity where
  code : String
  label : String
  is_main_activity : Bool
  risk : String

/-- `MissionResourceSchema`. -/
structure Mission where
  label : String
  description : Option String
  start_date : Option String
  end_date : Option String
  risk : String

/-- The argument of `z.union([z.string(), z.number()])` in `AffectationResourceSchema.id`. -/
inductive StrNum where
  | s (v : String) : StrNum
  | n (v : Int) : StrNum

/-- `.transform(val => String(val))` applied to the union. -/
def StrNum.toStr : StrNum → StrNum
  | .s v => .s v
  | .n v => .s (toString v)

/-- `AffectationResourceSchema`. -/
structure Affectation where
  id : StrNum
  object : String
  first_name : String
  last_name : String
  email : String
  is_validator : Bool
  is_supervisor : Bool

/-- `DiligenceResourceSchema` (four plain strings; no constrained field). -/
structure Diligence where
  title : String
  description : String
  threat_vulnerability_origin : String
  threat_vulnerability_description : String

/-- `CustomerDocumentResourceSchema`. -/
structure CustomerDocument where
  type : Option String
  title : Option String
  issue_date : Option String
  expiration_date : Tri String
  comment : Tri String
  file_list : List String

/-- `PersonDocumentResourceSchema`. -/
structure PersonDocument where
  type : String
  title : String
  issue_date : Option String
  expiration_date : Tri String
  comment : Option String
  file_list : List String
  person_id : Option String

/-- `CustomerPersonResourceSchema` (person embedded under a customer). -/
structure CustomerPerson where
  id : String
  first_name : String
  last_name : String
  person_acting_on_behalf : Bool
  beneficial_owner : Bool
  legal_representative : Bool
  role : Option String
  date_of_birth : Option String
  city_of_birth : Option String
  birth_country : Option Country
  nationality : Option Country
  met_and_certify_identity : Bool
  address_list : List PersonAddress
  other_activities : Tri String
  politically_exposed_person : Bool
  integrity_reputation_doubts : Bool
  assets_freeze : Option Bool
  observation : Tri String
  document_list : List PersonDocument

/-- The `risk_summary` sub-object of `CustomerResourceSchema` (the four axes). -/
structure RiskSummary where
  location : String
  activity : String
  mission : String
  customer : String

/-- `CustomerResourceSchema`, field-for-field in source order. -/
structure Customer where
  id : String
  legal_type_code : Option Int
  legal_type_label : Option String
  code : Option String
  company_name : String
  company_number : Option String
  company_country : Option String
  email : Tri String
  phone : Tri String
  creation_date : Option String
  fiscal_year_end_date : Option String
  activity_list : List Activity
  address_list : List CustomerAddress
  person_list : List CustomerPerson
  mission_list : List Mission
  relationship_start_date : Option String
  state : String
  relationship_end_date : Tri String
  accountant_choice_reason : Tri String
  relationship_description : Tri String
  vigilance_level : String
  risk_summary : RiskSummary
  diligences : List Diligence
  observation : Tri String
  turnover : Tri Int
  affectation_list : List Affectation
  document_list : List CustomerDocument

/-! Parsers: one per schema, written as explicit `Option.bind` chains so a
successful parse returns the input structure with exactly the transformed
fields rewritten.  `*_norm` states the expected output shape. -/

def CountryResourceSchema_parse (c : Country) : Option Country :=
  (RiskLevelSchema_parse c.risk).bind fun risk =>
  some { label := c.label, risk := risk }

def Country_norm (c : Country) : Country :=
  { c with risk := strToLower c.risk }

def AddressAreaResourceSchema_parse (a : AddressArea) : Option AddressArea :=
  (RiskLevelSchema_parse a.risk).bind fun risk =>
  some { label := a.label, risk := risk }

def AddressArea_norm (a : AddressArea) : AddressArea :=
  { a with risk := strToLower a.risk }

def CustomerAddressResourceSchema_parse (a : CustomerAddress) : Option CustomerAddress :=
  (CountryResourceSchema_parse a.country).bind fun country =>
  (optParse AddressAreaResourceSchema_parse a.address_area).bind fun area =>
  some { a with country := country, address_area := area }

def CustomerAddress_norm (a : CustomerAddress) : CustomerAddress :=
  { a with
    country := Country_norm a.country
    address_area := a.address_area.map AddressArea_norm }

def PersonAddressResourceSchema_parse (a : PersonAddress) : Option PersonAddress :=
  (optParse CountryResourceSchema_parse a.country).bind fun country =>
  (optParse AddressAreaResourceSchema_parse a.address_area).bind fun area =>
  some { a with country := country, address_area := area }

def PersonAddress_norm (a : PersonAddress) : PersonAddress :=
  { a with
    country := a.country.map Country_norm
    address_area := a.address_area.map AddressArea_norm }

def ActivityResourceSchema_parse (a : Activity) : Option Activity :=
  (RiskLevelSchema_parse a.risk).bind fun risk =>
  some { a with risk := risk }

def Activity_norm (a : Activity) : Activity :=
  { a with risk := strToLower a.risk }

def MissionResourceSchema_parse (m : Mission) : Option Mission :=
  (RiskLevelSchema_parse m.risk).bind fun risk =>
  some { m with risk := risk }

def Mission_norm (m : Mission) : Mission :=
  { m with risk := strToLower m.risk }

def AffectationResourceSchema_parse (a : Affectation) : Option Affectation :=
  (zGuard emailCheck a.email).bind fun email =>
  some { a with id := a.id.toStr, email := email }

def Affectation_norm (a : Affectation) : Affectation :=
  { a with id := a.id.toStr }

def CustomerDocumentResourceSchema_parse (d : CustomerDocument) : Option CustomerDocument :=
  (optParse (zGuard dateCheck) d.issue_date).bind fun issue_date =>
  (triParse (zGuard dateCheck) d.expiration_date).bind fun expiration_date =>
  (mapMOpt (zGuard uuidCheck) d.file_list).bind fun file_list =>
  some { d with
         issue_date := issue_date
         expiration_date := expiration_date
         file_list := file_list }

def CustomerDocument_norm (d : CustomerDocument) : CustomerDocument := d

def PersonDocumentResourceSchema_parse (d : PersonDocument) : Option PersonDocument :=
  (optParse (zGuard dateCheck) d.issue_date).bind fun issue_date =>
  (triParse (zGuard dateCheck) d.expiration_date).bind fun expiration_date =>
  (mapMOpt (zGuard uuidCheck) d.file_list).bind fun file_list =>
  (optParse (zGuard uuidCheck) d.person_id).bind fun person_id =>
  some { d with
         issue_date := issue_date
         expiration_date := expiration_date
         file_list := file_list
         person_id := person_id }

def PersonDocument_norm (d : PersonDocument) : PersonDocument := d

def CustomerPersonResourceSchema_parse (p : CustomerPerson) : Option CustomerPerson :=
  (zGuard uuidCheck p.id).bind fun id =>
  (optParse CountryResourceSchema_parse p.birth_country).bind fun birth_country =>
  (optParse CountryResourceSchema_parse p.nationality).bind fun nationality =>
  (mapMOpt PersonAddressResourceSchema_parse p.address_list).bind fun address_list =>
  (mapMOpt PersonDocumentResourceSchema_parse p.document_list).bind fun document_list =>
  some { p with
         id := id
         birth_country := birth_country
         nationality := nationality
         address_list := address_list
         document_list := document_list }

def CustomerPerson_norm (p : CustomerPerson) : CustomerPerson :=
  { p with
    birth_country := p.birth_country.map Country_norm
    nationality := p.nationality.map Country_norm
    address_list := p.address_list.map PersonAddress_norm
    document_list := p.document_list.map PersonDocument_norm }

def RiskSummarySchema_parse (r : RiskSummary) : Option RiskSummary :=
  (RiskLevelSchema_parse r.location).bind fun location =>
  (RiskLevelSchema_parse r.activity).bind fun activity =>
  (RiskLevelSchema_parse r.mission).bind fun mission =>
  (RiskLevelSchema_parse r.customer).bind fun customer =>
  some { location := location, activity := activity, mission := mission,
         customer := customer }

def RiskSummary_norm (r : RiskSummary) : RiskSummary :=
  { location := strToLower r.location, activity := strToLower r.activity,
    mission := strToLower r.mission, customer := strToLower r.customer }

/-- `CustomerResourceSchema.parse`: every constrained or transformed field is
checked/rewritten; all other declared fields pass through unchanged. -/
def CustomerResourceSchema_parse (c : Customer) : Option Customer :=
  (zGuard uuidCheck c.id).bind fun id =>
  (triParse (zGuard emailCheck) c.email).bind fun email =>
  (mapMOpt ActivityResourceSchema_parse c.activity_list).bind fun activity_list =>
  (mapMOpt CustomerAddressResourceSchema_parse c.address_list).bind fun address_list =>
  (mapMOpt CustomerPersonResourceSchema_parse c.person_list).bind fun person_list =>
  (mapMOpt MissionResourceSchema_parse c.mission_list).bind fun mission_list =>
  (CustomerStateSchema_parse c.state).bind fun state =>
  (RiskLevelSchema_parse c.vigilance_level).bind fun vigilance_level =>
  (RiskSummarySchema_parse c.risk_summary).bind fun risk_summary =>
  (mapMOpt AffectationResourceSchema_parse c.affectation_list).bind fun affectation_list =>
  (mapMOpt CustomerDocumentResourceSchema_parse c.document_list).bind fun document_list =>
  some { c with
         id := id
         email := email
         activity_list := activity_list
         address_list := address_list
         person_list := person_list
         mission_list := mission_list
         state := state
         vigilance_level := vigilance_level
         risk_summary := risk_summary
         affectation_list := affectation_list
         document_list := document_list }

/-- The expected output of a successful `CustomerResourceSchema` parse:
identical to the input except that every risk-level token is lowercased and
affectation ids are stringified. -/
def Customer_norm (c : Customer) : Customer :=
  { c with
    vigilance_level := strToLower c.vigilance_level
    risk_summary := RiskSummary_norm c.risk_summary
    activity_list := c.activity_list.map Activity_norm
    address_list := c.address_list.map CustomerAddress_norm
    person_list := c.person_list.map CustomerPerson_norm
    mission_list := c.mission_list.map Mission_norm
    affectation_list := c.affectation_list.map Affectation_norm
    document_list := c.document_list.map CustomerDocument_norm }

/-! Preservation lemmas: a successful parse yields exactly the normalized
input — every declared field survives, with only the transformed fields
(risk tokens, affectation ids) rewritten. -/

theorem Country_parse_norm {c y : Country}
    (h : CountryResourceSchema_parse c = some y) : y = Country_norm c := by
  simp only [CountryResourceSchema_parse, Option.bind_eq_some,
    Option.some.injEq] at h
  obtain ⟨risk, hr, rfl⟩ := h
  simp [Country_norm, riskParse_eq_lower hr]

theorem AddressArea_parse_norm {a y : AddressArea}
    (h : AddressAreaResourceSchema_parse a = some y) : y = AddressArea_norm a := by
  simp only [AddressAreaResourceSchema_parse, Option.bind_eq_some,
    Option.some.injEq] at h
  obtain ⟨risk, hr, rfl⟩ := h
  simp [AddressArea_norm, riskParse_eq_lower hr]

theorem CustomerAddress_parse_norm {a y : CustomerAddress}
    (h : CustomerAddressResourceSchema_parse a = some y) :
    y = CustomerAddress_norm a := by
  simp only [CustomerAddressResourceSchema_parse, Option.bind_eq_some,
    Option.some.injEq] at h
  obtain ⟨country, hc, area, ha, rfl⟩ := h
  simp [CustomerAddress_norm, Country_parse_norm hc,
    optParse_norm (fun _ _ hb => AddressArea_parse_norm hb) ha]

theorem PersonAddress_parse_norm {a y : PersonAddress}
    (h : PersonAddressResourceSchema_parse a = some y) :
    y = PersonAddress_norm a := by
  simp only [PersonAddressResourceSchema_parse, Option.bind_eq_some,
    Option.some.injEq] at h
  obtain ⟨country, hc, area, ha, rfl⟩ := h
  simp [PersonAddress_norm,
    optParse_norm (fun _ _ hb => Country_parse_norm hb) hc,
    optParse_norm (fun _ _ hb => AddressArea_parse_norm hb) ha]

theorem Activity_parse_norm {a y : Activity}
    (h : ActivityResourceSchema_parse a = some y) : y = Activity_norm a := by
  simp only [ActivityResourceSchema_parse, Option.bind_eq_some,
    Option.some.injEq] at h
  obtain ⟨risk, hr, rfl⟩ := h
  simp [Activity_norm, riskParse_eq_lower hr]

theorem Mission_parse_norm {m y : Mission}
    (h : MissionResourceSchema_parse m = some y) : y = Mission_norm m := by
  simp only [MissionResourceSchema_parse, Option.bind_eq_some,
    Option.some.injEq] at h
  obtain ⟨risk, hr, rfl⟩ := h
  simp [Mission_norm, riskParse_eq_lower hr]

theorem Affectation_parse_norm {a y : Affectation}
    (h : AffectationResourceSchema_parse a = some y) : y = Affectation_norm a := by
  simp only [AffectationResourceSchema_parse, Option.bind_eq_some,
    Option.some.injEq] at h
  obtain ⟨email, he, rfl⟩ := h
  simp [Affectation_norm, zGuard_eq he]

theorem CustomerDocument_parse_norm {d y : CustomerDocument}
    (h : CustomerDocumentResourceSchema_parse d = some y) :
    y = CustomerDocument_norm d := by
  simp only [CustomerDocumentResourceSchema_parse, Option.bind_eq_some,
    Option.some.injEq] at h
  obtain ⟨issue, hi, expir, he, files, hf, rfl⟩ := h
  have hid : ∀ (a b : String), zGuard dateCheck a = some b → b = id a :=
    fun _ _ hb => zGuard_eq hb
  have huid : ∀ (a b : String), zGuard uuidCheck a = some b → b = id a :=
    fun _ _ hb => zGuard_eq hb
  simp [CustomerDocument_norm, optParse_norm hid hi, triParse_norm hid he,
    mapMOpt_norm huid hf]

theorem PersonDocument_parse_norm {d y : PersonDocument}
    (h : PersonDocumentResourceSchema_parse d = some y) :
    y = PersonDocument_norm d := by
  simp only [PersonDocumentResourceSchema_parse, Option.bind_eq_some,
    Option.some.injEq] at h
  obtain ⟨issue, hi, expir, he, files, hf, pid, hp, rfl⟩ := h
  have hid : ∀ (a b : String), zGuard dateCheck a = some b → b = id a :=
    fun _ _ hb => zGuard_eq hb
  have huid : ∀ (a b : String), zGuard uuidCheck a = some b → b = id a :=
    fun _ _ hb => zGuard_eq hb
  simp [PersonDocument_norm, optParse_norm hid hi, triParse_norm hid he,
    mapMOpt_norm huid hf, optParse_norm huid hp]

theorem CustomerPerson_parse_norm {p y : CustomerPerson}
    (h : CustomerPersonResourceSchema_parse p = some y) :
    y = CustomerPerson_norm p := by
  simp only [CustomerPersonResourceSchema_parse, Option.bind_eq_some,
    Option.some.injEq] at h
  obtain ⟨id0, hid0, bc, hbc, nat, hnat, addrs, ha, docs, hd, rfl⟩ := h
  simp [CustomerPerson_norm, zGuard_eq hid0,
    optParse_norm (fun _ _ hb => Country_parse_norm hb) hbc,
    optParse_norm (fun _ _ hb => Country_parse_norm hb) hnat,
    mapMOpt_norm (fun _ _ hb => PersonAddress_parse_norm hb) ha,
    mapMOpt_norm (fun _ _ hb => PersonDocument_parse_norm hb) hd]

theorem RiskSummary_parse_norm {r y : RiskSummary}
    (h : RiskSummarySchema_parse r = some y) : y = RiskSummary_norm r := by
  simp only [RiskSummarySchema_parse, Option.bind_eq_some,
    Option.some.injEq] at h
  obtain ⟨l, hl, a, ha, m, hm, c, hc, rfl⟩ := h
  simp [RiskSummary_norm, riskParse_eq_lower hl, riskParse_eq_lower ha,
    riskParse_eq_lower hm, riskParse_eq_lower hc]

theorem Customer_parse_norm {c y : Customer}
    (h : CustomerResourceSchema_parse c = some y) : y = Customer_norm c := by
  simp only [CustomerResourceSchema_parse, Option.bind_eq_some,
    Option.some.injEq] at h
  obtain ⟨id0, hid0, email, hem, acts, hacts, addrs, haddrs, persons, hpers,
    missions, hmiss, state, hstate, vig, hvig, rs, hrs, affs, haffs,
    docs, hdocs, rfl⟩ := h
  have hemail : ∀ (a b : String), zGuard emailCheck a = some b → b = id a :=
    fun _ _ hb => zGuard_eq hb
  simp [Customer_norm, zGuard_eq hid0, triParse_norm hemail hem,
    mapMOpt_norm (fun _ _ hb => Activity_parse_norm hb) hacts,
    mapMOpt_norm (fun _ _ hb => CustomerAddress_parse_norm hb) haddrs,
    mapMOpt_norm (fun _ _ hb => CustomerPerson_parse_norm hb) hpers,
    mapMOpt_norm (fun _ _ hb => Mission_parse_norm hb) hmiss,
    stateParse_eq hstate, riskParse_eq_lower hvig, RiskSummary_parse_norm hrs,
    mapMOpt_norm (fun _ _ hb => Affectation_parse_norm hb) haffs,
    mapMOpt_norm (fun _ _ hb => CustomerDocument_parse_norm hb) hdocs]

/-! ## Error taxonomy and remote-access component (`src/index.ts`)

`McpError` codes used by the server; `ToolFailure` is what a handler can
throw: an `McpError`, a zod validation error, or a plain JavaScript `Error`
identified by its message (the `KantaClient` only ever throws plain
`Error`s built from the HTTP status/body or the abort timeout). -/

inductive ErrCode where
  | invalidParams
  | invalidRequest
  | methodNotFound
  | internalError
  deriving DecidableEq

structure McpErr where
  code : ErrCode
  msg : String
  deriving DecidableEq

inductive ToolFailure where
  | mcp (e : McpErr)
  | zod (issues : List String)
  | err (m : String)
  | unknown
  deriving DecidableEq

/-- `KantaClient.makeRequest`: a non-2xx response throws
`new Error("HTTP " + status + ": " + errorText)`. -/
def httpErrorMsg (status : Nat) (body : String) : String :=
  "HTTP " ++ toString status ++ ": " ++ body

/-- `KantaClient.makeRequest`: an aborted request throws
`new Error("Request timeout after " + timeout + "ms")` (default 30000). -/
def timeoutErrorMsg (timeoutMs : Nat) : String :=
  "Request timeout after " ++ toString timeoutMs ++ "ms"

/-- The tool-callback `catch` block of `createServer` (`src/index.ts`) /
`CallToolRequestSchema` handler (stdio server): `McpError`s are re-thrown,
`ZodError`s map to `InvalidParams`, and plain `Error`s are classified by
substring tests on their message, in source order. -/
def normalizeToolError (toolName : String) : ToolFailure → McpErr
  | .mcp e => e
  | .zod issues =>
      ⟨.invalidParams, "Erreurs de validation: " ++ String.intercalate ", " issues⟩
  | .err m =>
      if strContains m "HTTP 400" || strContains m "Bad Request" then
        ⟨.invalidParams, "Paramètres invalides: " ++ m⟩
      else if strContains m "HTTP 401" || strContains m "Unauthorized" then
        ⟨.invalidRequest, "Non autorisé: Vérifiez votre clé API"⟩
      else if strContains m "HTTP 403" || strContains m "Forbidden" then
        ⟨.invalidRequest, "Accès refusé: " ++ m⟩
      else if strContains m "HTTP 404" || strContains m "Not Found" then
        ⟨.invalidRequest, "Ressource non trouvée: " ++ m⟩
      else if strContains m "timeout" || strContains m "TIMEOUT" then
        ⟨.internalError, "Timeout de requête: " ++ m⟩
      else
        ⟨.internalError, "Erreur lors de l\x27exécution: " ++ m⟩
  | .unknown =>
      ⟨.internalError, "Erreur inconnue lors de l\x27exécution de l\x27outil " ++ toolName⟩

/-! ## Client stub and call traces

Each `await client.X(...)` call site appends a `RemoteCall` to the handler's
trace; the stub supplies the outcome.  Pagination options in a `RemoteCall`
are the values actually placed in the query string (after the client's JS
truthiness test `if (params?.per_page)`, which drops `0`). -/

inductive RemoteCall where
  | getCustomers (per_page page : Option Int)
  | getCustomer (id : String)
  | createCustomer
  | updateCustomer (id : String)
  | searchCustomers
  | assignCustomers
  | getCustomerRiskSummary (id : String)
  | getUsers (per_page page : Option Int)
  | getUser (id : String)
  | createUser
  | deleteUser (id : String)
  | getPersons (per_page page : Option Int)
  | getPerson (id : String)
  | getFirms (per_page : Option Int)
  | getStructure
  deriving DecidableEq

/-- The projection of a `Customer` used by the resource snapshots
(`kanta://customers/summary` and the risk-summary resources); the remaining
fields are irrelevant to every property below and are not modelled on this
side of the wire. -/
structure CustomerBrief where
  id : String
  company_name : String
  state : Json
  vigilance_level : String
  code : Json
  creation_date : Json
  risk_summary : Json

/-- A paginated list response as returned by the client methods
(`{ data, total_data, per_page, current_page, total_page }`). -/
structure PageResp where
  data : List Json
  total_data : Int
  per_page : Int
  current_page : Int
  total_page : Int

/-- The customers list response, with the per-customer projection above. -/
structure CustomersPage where
  data : List CustomerBrief
  total_data : Int
  per_page : Int
  current_page : Int
  total_page : Int

def CustomerBrief.toJson (c : CustomerBrief) : Json :=
  .obj [("id", .str c.id), ("company_name", .str c.company_name),
        ("state", c.state), ("vigilance_level", .str c.vigilance_level),
        ("code", c.code), ("creation_date", c.creation_date),
        ("risk_summary", c.risk_summary)]

def PageResp.toJson (p : PageResp) : Json :=
  .obj [("data", .arr p.data), ("total_data", .num p.total_data),
        ("per_page", .num p.per_page), ("current_page", .num p.current_page),
        ("total_page", .num p.total_page)]

def CustomersPage.toJson (p : CustomersPage) : Json :=
  .obj [("data", .arr (p.data.map CustomerBrief.toJson)),
        ("total_data", .num p.total_data), ("per_page", .num p.per_page),
        ("current_page", .num p.current_page), ("total_page", .num p.total_page)]

/-- Stubbed `KantaClient`: one outcome per endpoint. -/
structure ClientStub where
  getCustomersPage : Option Int → Option Int → Except ToolFailure CustomersPage
  getCustomer : String → Except ToolFailure CustomerBrief
  createCustomer : List (String × Json) → Except ToolFailure Json
  updateCustomer : String → List (String × Json) → Except ToolFailure Json
  searchCustomers : List (String × Json) → Except ToolFailure Json
  assignCustomers : List (String × Json) → Except ToolFailure Json
  getCustomerRiskSummary : String → Except ToolFailure Json
  getUsersPage : Option Int → Option Int → Except ToolFailure PageResp
  getUser : String → Except ToolFailure Json
  createUser : List (String × Json) → Except ToolFailure Json
  deleteUser : String → Except ToolFailure Json
  getPersonsPage : Option Int → Option Int → Except ToolFailure PageResp
  getPerson : String → Except ToolFailure Json
  getFirmsPage : Option Int → Except ToolFailure PageResp
  getStructure : Except ToolFailure Json

/-- JS truthiness test on a numeric query parameter (`if (params?.per_page)`):
`0` is falsy and is dropped from the query string. -/
def jsTruthy : Option Int → Option Int
  | some 0 => none
  | o => o

/-- JS truthiness test on a string query parameter: `""` is falsy. -/
def jsTruthyStr : Option String → Option String
  | some "" => none
  | o => o

/-! ## zod argument parsing for the tool handlers

Field combinators mirroring the `z.object({...}).parse(args)` calls in
`src/tools/*.ts`; an error carries the offending field name (zod's issue
paths).  A parse fails when `args` is not an object, when a required key is
missing, or when a present value violates its field schema; unknown keys are
stripped (zod's default). -/

def Json.isObj : Json → Bool
  | .obj _ => true
  | _ => false

def Json.lookupNum (j : Json) (key : String) : Option Int :=
  match j.lookup key with
  | some (.num n) => some n
  | _ => none

/-- `z.number().min(lo)` (and `.max(hi)` when given), `.optional()`. -/
def zodOptNum (args : Json) (key : String) (lo : Int) (hi : Option Int) :
    Except (List String) (Option Int) :=
  match args.lookup key with
  | none => .ok none
  | some (.num n) =>
      if lo ≤ n ∧ n ≤ hi.getD n then .ok (some n) else .error [key]
  | some _ => .error [key]

/-- `z.number().optional()` (no bounds). -/
def zodOptNumAny (args : Json) (key : String) :
    Except (List String) (Option Int) :=
  match args.lookup key with
  | none => .ok none
  | some (.num n) => .ok (some n)
  | some _ => .error [key]

/-- A required `z.string()` refined by `check`. -/
def zodReqStrCheck (args : Json) (key : String) (check : String → Bool) :
    Except (List String) String :=
  match args.lookup key with
  | some (.str s) => if check s then .ok s else .error [key]
  | _ => .error [key]

/-- An optional `z.string()` refined by `check`. -/
def zodOptStrCheck (args : Json) (key : String) (check : String → Bool) :
    Except (List String) (Option String) :=
  match args.lookup key with
  | none => .ok none
  | some (.str s) => if check s then .ok (some s) else .error [key]
  | some _ => .error [key]

def alwaysTrue (_ : String) : Bool := true

/-- `z.array(z.string().uuid())`, `.optional()`. -/
def zodOptUuidArray (args : Json) (key : String) :
    Except (List String) (Option (List String)) :=
  match args.lookup key with
  | none => .ok none
  | some (.arr xs) =>
      match mapMOpt (fun j => match j with
                              | Json.str s => zGuard uuidCheck s
                              | _ => none) xs with
      | some ids => .ok (some ids)
      | none => .error [key]
  | some _ => .error [key]

/-- A required `z.array(z.string().uuid())` (no `.min`, per
`AssignmentRequestSchema`). -/
def zodReqUuidArray (args : Json) (key : String) :
    Except (List String) (List String) :=
  match args.lookup key with
  | some (.arr xs) =>
      match mapMOpt (fun j => match j with
                              | Json.str s => zGuard uuidCheck s
                              | _ => none) xs with
      | some ids => .ok ids
      | none => .error [key]
  | _ => .error [key]

/-- `z.boolean().default(dflt)`: a missing key takes the default. -/
def zodBoolDefault (args : Json) (key : String) (dflt : Bool) :
    Except (List String) Bool :=
  match args.lookup key with
  | none => .ok dflt
  | some (.bool b) => .ok b
  | some _ => .error [key]

/-- `z.enum(tokens)`, `.optional()`. -/
def zodOptEnum (args : Json) (key : String) (tokens : List String) :
    Except (List String) (Option String) :=
  match args.lookup key with
  | none => .ok none
  | some (.str s) => if s ∈ tokens then .ok (some s) else .error [key]
  | some _ => .error [key]

/-- A required `z.enum(tokens)`. -/
def zodReqEnum (args : Json) (key : String) (tokens : List String) :
    Except (List String) String :=
  match args.lookup key with
  | some (.str s) => if s ∈ tokens then .ok s else .error [key]
  | _ => .error [key]

/-- `z.array(z.string()).min(lo).max(hi)` (for `file_paths`). -/
def zodStrArrayBounded (args : Json) (key : String) (lo hi : Nat) :
    Except (List String) (List String) :=
  match args.lookup key with
  | some (.arr xs) =>
      match mapMOpt (fun j => match j with
                              | Json.str s => some s
                              | _ => none) xs with
      | some ss => if lo ≤ ss.length ∧ ss.length ≤ hi then .ok ss else .error [key]
      | none => .error [key]
  | _ => .error [key]

/-- Guard shared by every `z.object(...).parse(args)`: `args` must be an object. -/
def zodObj (args : Json) : Except (List String) Unit :=
  if args.isObj then .ok () else .error ["expected object"]

/-- `z.object({ per_page: z.number().min(1).max(100).optional(), page:
z.number().min(1).optional() }).parse(args)` — `get_customers`. -/
def parsePaginationArgs (args : Json) :
    Except (List String) (Option Int × Option Int) := do
  let _ ← zodObj args
  let pp ← zodOptNum args "per_page" 1 (some 100)
  let pg ← zodOptNum args "page" 1 none
  pure (pp, pg)

/-- `z.object({ id: z.string().uuid() }).parse(args)` — shared by
`get_customer`, `get_customer_risk_summary`, `get_user`, `delete_user`,
`get_person`, `download_file`. -/
def parseIdArg (args : Json) : Except (List String) String := do
  let _ ← zodObj args
  zodReqStrCheck args "id" uuidCheck

/-- `CreateCustomerRequestSchema` (`src/types.ts`). -/
structure CreateCustomerReq where
  company_number : String
  supervisor : Option String
  contributors : Option (List String)
  firm : Option String
  fiscal_year_end_date : Option String
  turnover : Option Int
  bypass_RBE : Bool
  documents_auto_get : Bool
  deriving DecidableEq

def CreateCustomerRequestSchema_parse (args : Json) :
    Except (List String) CreateCustomerReq := do
  let _ ← zodObj args
  let company_number ← zodReqStrCheck args "company_number" alwaysTrue
  let supervisor ← zodOptStrCheck args "supervisor" uuidCheck
  let contributors ← zodOptUuidArray args "contributors"
  let firm ← zodOptStrCheck args "firm" uuidCheck
  let fiscal_year_end_date ← zodOptStrCheck args "fiscal_year_end_date" dateCheck
  let turnover ← zodOptNumAny args "turnover"
  let bypass_RBE ← zodBoolDefault args "bypass_RBE" true
  let documents_auto_get ← zodBoolDefault args "documents_auto_get" true
  pure { company_number, supervisor, contributors, firm, fiscal_year_end_date,
         turnover, bypass_RBE, documents_auto_get }

/-- `UpdateCustomerRequestSchema` extended with the required `id`
(`update_customer` handler). -/
structure UpdateCustomerReq where
  id : String
  company_number : Option String
  code : Option String
  name : Option String
  firstname : Option String
  lastname : Option String
  creation_date : Option String
  fiscal_year_end_date : Option String
  turnover : Option Int
  contact_email : Option String
  contact_name : Option String
  contact_phone : Option String
  deriving DecidableEq

def UpdateCustomerRequestSchema_parse (args : Json) :
    Except (List String) UpdateCustomerReq := do
  let _ ← zodObj args
  let id ← zodReqStrCheck args "id" uuidCheck
  let company_number ← zodOptStrCheck args "company_number" alwaysTrue
  let code ← zodOptStrCheck args "code" alwaysTrue
  let name ← zodOptStrCheck args "name" alwaysTrue
  let firstname ← zodOptStrCheck args "firstname" alwaysTrue
  let lastname ← zodOptStrCheck args "lastname" alwaysTrue
  let creation_date ← zodOptStrCheck args "creation_date" dateCheck
  let fiscal_year_end_date ← zodOptStrCheck args "fiscal_year_end_date" dateCheck
  let turnover ← zodOptNumAny args "turnover"
  let contact_email ← zodOptStrCheck args "contact_email" emailCheck
  let contact_name ← zodOptStrCheck args "contact_name" alwaysTrue
  let contact_phone ← zodOptStrCheck args "contact_phone" alwaysTrue
  pure { id, company_number, code, name, firstname, lastname, creation_date,
         fiscal_year_end_date, turnover, contact_email, contact_name,
         contact_phone }

/-- The `search_customers` argument object. -/
structure SearchCustomersReq where
  company_number : Option String
  company_name : Option String
  code : Option String
  per_page : Option Int
  page : Option Int
  deriving DecidableEq

def SearchCustomersArgs_parse (args : Json) :
    Except (List String) SearchCustomersReq := do
  let _ ← zodObj args
  let company_number ← zodOptStrCheck args "company_number" alwaysTrue
  let company_name ← zodOptStrCheck args "company_name" alwaysTrue
  let code ← zodOptStrCheck args "code" alwaysTrue
  let per_page ← zodOptNum args "per_page" 1 (some 100)
  let page ← zodOptNum args "page" 1 none
  pure { company_number, company_name, code, per_page, page }

/-- `AssignmentRequestSchema` (`src/types.ts`): `customers` is a plain
`z.array(UUIDSchema)` (no `.min(1)`); the other three fields are optional. -/
structure AssignmentReq where
  customers : List String
  supervisor : Option String
  contributors : Option (List String)
  firm : Option String
  deriving DecidableEq

def AssignmentRequestSchema_parse (args : Json) :
    Except (List String) AssignmentReq := do
  let _ ← zodObj args
  let customers ← zodReqUuidArray args "customers"
  let supervisor ← zodOptStrCheck args "supervisor" uuidCheck
  let contributors ← zodOptUuidArray args "contributors"
  let firm ← zodOptStrCheck args "firm" uuidCheck
  pure { customers, supervisor, contributors, firm }

/-- `CreateUserRequestSchema` (`src/types.ts`). -/
structure CreateUserReq where
  firstname : String
  lastname : String
  email : String
  role : String
  default_supervisor : Option String
  default_contributor : Option String
  firms : Option (List String)
  trigram : Option String
  deriving DecidableEq

def userRoleTokens : List String :=
  ["certified accountant", "controller", "collaborator"]

def CreateUserRequestSchema_parse (args : Json) :
    Except (List String) CreateUserReq := do
  let _ ← zodObj args
  let firstname ← zodReqStrCheck args "firstname" alwaysTrue
  let lastname ← zodReqStrCheck args "lastname" alwaysTrue
  let email ← zodReqStrCheck args "email" emailCheck
  let role ← zodReqEnum args "role" userRoleTokens
  let default_supervisor ← zodOptStrCheck args "default_supervisor" uuidCheck
  let default_contributor ← zodOptStrCheck args "default_contributor" uuidCheck
  let firms ← zodOptUuidArray args "firms"
  let trigram ← zodOptStrCheck args "trigram" alwaysTrue
  pure { firstname, lastname, email, role, default_supervisor,
         default_contributor, firms, trigram }

/-- The `upload_person_document` argument object (`src/tools/persons.ts`). -/
structure UploadPersonDocReq where
  id : String
  type : Option String
  title : Option String
  issue_date : Option String
  expiration_date : Option String
  comment : Option String
  file_paths : List String
  deriving DecidableEq

def documentTypeTokens : List String :=
  ["id_card", "passport", "driver_license", "residence_permit"]

def UploadPersonDocArgs_parse (args : Json) :
    Except (List String) UploadPersonDocReq := do
  let _ ← zodObj args
  let id ← zodReqStrCheck args "id" uuidCheck
  let type ← zodOptEnum args "type" documentTypeTokens
  let title ← zodOptStrCheck args "title" alwaysTrue
  let issue_date ← zodOptStrCheck args "issue_date" dateCheck
  let expiration_date ← zodOptStrCheck args "expiration_date" dateCheck
  let comment ← zodOptStrCheck args "comment" alwaysTrue
  let file_paths ← zodStrArrayBounded args "file_paths" 1 10
  pure { id, type, title, issue_date, expiration_date, comment, file_paths }

/-! ## Outgoing request bodies

zod's parsed object carries a key exactly when the field is present; absent
optional fields produce no key, so `JSON.stringify(body)` omits them.  A
serialized body is the ordered key/value list of that object. -/

def optField (key : String) : Option Json → List (String × Json)
  | some j => [(key, j)]
  | none => []

/-- `KantaClient.assignCustomers` sends the parsed `AssignmentRequest` object
as the POST body: `supervisor`/`contributors`/`firm` appear iff they were
present, and a present empty `contributors` list is sent as `[]`. -/
def assignCustomersBody (r : AssignmentReq) : List (String × Json) :=
  [("customers", Json.arr (r.customers.map Json.str))]
    ++ optField "supervisor" (r.supervisor.map Json.str)
    ++ optField "contributors"
        (r.contributors.map fun l => Json.arr (l.map Json.str))
    ++ optField "firm" (r.firm.map Json.str)

def createCustomerBody (r : CreateCustomerReq) : List (String × Json) :=
  [("company_number", Json.str r.company_number)]
    ++ optField "supervisor" (r.supervisor.map Json.str)
    ++ optField "contributors"
        (r.contributors.map fun l => Json.arr (l.map Json.str))
    ++ optField "firm" (r.firm.map Json.str)
    ++ optField "fiscal_year_end_date" (r.fiscal_year_end_date.map Json.str)
    ++ optField "turnover" (r.turnover.map Json.num)
    ++ [("bypass_RBE", Json.bool r.bypass_RBE),
        ("documents_auto_get", Json.bool r.documents_auto_get)]

/-- `update_customer` strips `id` (`const { id, ...updateData } = ...`) and
sends the rest. -/
def updateCustomerBody (r : UpdateCustomerReq) : List (String × Json) :=
  optField "company_number" (r.company_number.map Json.str)
    ++ optField "code" (r.code.map Json.str)
    ++ optField "name" (r.name.map Json.str)
    ++ optField "firstname" (r.firstname.map Json.str)
    ++ optField "lastname" (r.lastname.map Json.str)
    ++ optField "creation_date" (r.creation_date.map Json.str)
    ++ optField "fiscal_year_end_date" (r.fiscal_year_end_date.map Json.str)
    ++ optField "turnover" (r.turnover.map Json.num)
    ++ optField "contact_email" (r.contact_email.map Json.str)
    ++ optField "contact_name" (r.contact_name.map Json.str)
    ++ optField "contact_phone" (r.contact_phone.map Json.str)

/-- `KantaClient.searchCustomers` builds the query string with JS truthiness
tests, so empty strings and `0` are dropped. -/
def searchCustomersQuery (r : SearchCustomersReq) : List (String × Json) :=
  optField "company_number" ((jsTruthyStr r.company_number).map Json.str)
    ++ optField "company_name" ((jsTruthyStr r.company_name).map Json.str)
    ++ optField "code" ((jsTruthyStr r.code).map Json.str)
    ++ optField "per_page" ((jsTruthy r.per_page).map Json.num)
    ++ optField "page" ((jsTruthy r.page).map Json.num)

def createUserBody (r : CreateUserReq) : List (String × Json) :=
  [("firstname", Json.str r.firstname), ("lastname", Json.str r.lastname),
   ("email", Json.str r.email), ("role", Json.str r.role)]
    ++ optField "default_supervisor" (r.default_supervisor.map Json.str)
    ++ optField "default_contributor" (r.default_contributor.map Json.str)
    ++ optField "firms" (r.firms.map fun l => Json.arr (l.map Json.str))
    ++ optField "trigram" (r.trigram.map Json.str)

/-! ## Tool handlers

`handleCustomerTool` follows the revision bundled with `src/index.ts` (zod
validation in every case); `handleUserTool`, `handlePersonTool` and
`handleMiscTool` follow `src/tools/users.ts` / `persons.ts` / `misc.ts`,
whose list operations cast `args` without validation.  Each handler returns
the result (or failure) together with the list of remote calls it issued. -/

def handleCustomerTool (client : ClientStub) (name : String) (args : Json) :
    Except ToolFailure Json × List RemoteCall :=
  if name == "get_customers" then
    match parsePaginationArgs args with
    | .error issues => (.error (.zod issues), [])
    | .ok (pp, pg) =>
        let ppq := jsTruthy pp
        let pgq := jsTruthy pg
        ((client.getCustomersPage ppq pgq).map CustomersPage.toJson,
         [RemoteCall.getCustomers ppq pgq])
  else if name == "get_customer" then
    match parseIdArg args with
    | .error issues => (.error (.zod issues), [])
    | .ok id =>
        ((client.getCustomer id).map CustomerBrief.toJson,
         [RemoteCall.getCustomer id])
  else if name == "create_customer" then
    match CreateCustomerRequestSchema_parse args with
    | .error issues => (.error (.zod issues), [])
    | .ok req =>
        (client.createCustomer (createCustomerBody req), [RemoteCall.createCustomer])
  else if name == "update_customer" then
    match UpdateCustomerRequestSchema_parse args with
    | .error issues => (.error (.zod issues), [])
    | .ok req =>
        (client.updateCustomer req.id (updateCustomerBody req),
         [RemoteCall.updateCustomer req.id])
  else if name == "search_customers" then
    match SearchCustomersArgs_parse args with
    | .error issues => (.error (.zod issues), [])
    | .ok req =>
        (client.searchCustomers (searchCustomersQuery req),
         [RemoteCall.searchCustomers])
  else if name == "assign_customers" then
    match AssignmentRequestSchema_parse args with
    | .error issues => (.error (.zod issues), [])
    | .ok req =>
        (client.assignCustomers (assignCustomersBody req),
         [RemoteCall.assignCustomers])
  else if name == "get_customer_risk_summary" then
    match parseIdArg args with
    | .error issues => (.error (.zod issues), [])
    | .ok id =>
        (client.getCustomerRiskSummary id, [RemoteCall.getCustomerRiskSummary id])
  else
    (.error (.err ("Outil client inconnu: " ++ name)), [])

def handleUserTool (client : ClientStub) (name : String) (args : Json) :
    Except ToolFailure Json × List RemoteCall :=
  if name == "get_users" then
    -- `const params = args as { per_page?: number; page?: number }` — no
    -- validation; the client then drops falsy values from the query.
    let pp := jsTruthy (args.lookupNum "per_page")
    let pg := jsTruthy (args.lookupNum "page")
    ((client.getUsersPage pp pg).map PageResp.toJson, [RemoteCall.getUsers pp pg])
  else if name == "get_user" then
    match parseIdArg args with
    | .error issues => (.error (.zod issues), [])
    | .ok id => (client.getUser id, [RemoteCall.getUser id])
  else if name == "create_user" then
    match CreateUserRequestSchema_parse args with
    | .error issues => (.error (.zod issues), [])
    | .ok req => (client.createUser (createUserBody req), [RemoteCall.createUser])
  else if name == "delete_user" then
    match parseIdArg args with
    | .error issues => (.error (.zod issues), [])
    | .ok id => (client.deleteUser id, [RemoteCall.deleteUser id])
  else
    (.error (.err ("Outil utilisateur inconnu: " ++ name)), [])

def handlePersonTool (client : ClientStub) (name : String) (args : Json) :
    Except ToolFailure Json × List RemoteCall :=
  if name == "get_persons" then
    -- cast without validation, as in `get_users`
    let pp := jsTruthy (args.lookupNum "per_page")
    let pg := jsTruthy (args.lookupNum "page")
    ((client.getPersonsPage pp pg).map PageResp.toJson,
     [RemoteCall.getPersons pp pg])
  else if name == "get_person" then
    match parseIdArg args with
    | .error issues => (.error (.zod issues), [])
    | .ok id => (client.getPerson id, [RemoteCall.getPerson id])
  else if name == "upload_person_document" then
    match UploadPersonDocArgs_parse args with
    | .error issues => (.error (.zod issues), [])
    | .ok _ =>
        -- `client.uploadPersonDocument` is commented out in `kanta-client`,
        -- so the call site throws a TypeError before any network activity.
        (.error (.err "client.uploadPersonDocument is not a function"), [])
  else
    (.error (.err ("Outil personne inconnu: " ++ name)), [])

def handleMiscTool (client : ClientStub) (name : String) (args : Json) :
    Except ToolFailure Json × List RemoteCall :=
  if name == "get_firms" then
    -- `const params = args as { per_page?: number }` — no validation
    let pp := jsTruthy (args.lookupNum "per_page")
    ((client.getFirmsPage pp).map PageResp.toJson, [RemoteCall.getFirms pp])
  else if name == "get_structure" then
    (client.getStructure, [RemoteCall.getStructure])
  else if name == "download_file" then
    match parseIdArg args with
    | .error issues => (.error (.zod issues), [])
    | .ok _ =>
        -- `client.downloadFile` is commented out in `kanta-client`, so the
        -- call site throws a TypeError before any network activity.
        (.error (.err "client.downloadFile is not a function"), [])
  else
    (.error (.err ("Outil divers inconnu: " ++ name)), [])

/-! ## Dispatcher (`CallToolRequestSchema` handler, stdio server; identical
routing in `createServer` of `src/index.ts`) -/

/-- The first routing branch: customer-operation name markers, in source order. -/
def customerToolMarkers (name : String) : Bool :=
  strStarts name "get_customers" || strStarts name "get_customer"
    || strStarts name "create_customer" || strStarts name "update_customer"
    || strStarts name "search_customers" || strStarts name "assign_customers"
    || strContains name "customer"

/-- The second routing branch: user-operation name markers. -/
def userToolMarkers (name : String) : Bool :=
  strStarts name "get_users" || strStarts name "get_user"
    || strStarts name "create_user" || strStarts name "delete_user"
    || strContains name "user"

/-- The third routing branch: person-operation name markers. -/
def personToolMarkers (name : String) : Bool :=
  strStarts name "get_persons" || strStarts name "get_person"
    || strStarts name "upload_person" || strContains name "person"

/-- The fourth routing branch: firm/structure/file name markers. -/
def miscToolMarkers (name : String) : Bool :=
  strStarts name "get_firms" || strStarts name "get_structure"
    || strStarts name "download_file" || strContains name "firm"
    || strContains name "structure" || strContains name "file"

inductive RouteGroup where
  | customer
  | user
  | person
  | misc
  | unknown
  deriving DecidableEq

/-- The dispatcher's if/else-if routing: the first matching group owns the
call; an unmatched name is the `MethodNotFound` case. -/
def routeTool (name : String) : RouteGroup :=
  if customerToolMarkers name then .customer
  else if userToolMarkers name then .user
  else if personToolMarkers name then .person
  else if miscToolMarkers name then .misc
  else .unknown

/-- The `CallToolRequestSchema` handler: the shutdown gate, then routing,
then error normalization of anything the handler threw. -/
def callToolHandler (isShuttingDown : Bool) (client : ClientStub)
    (name : String) (args : Json) : Except McpErr Json × List RemoteCall :=
  if isShuttingDown then
    (.error ⟨.internalError, "Server is shutting down"⟩, [])
  else
    let handled : Except ToolFailure Json × List RemoteCall :=
      match routeTool name with
      | .customer => handleCustomerTool client name args
      | .user => handleUserTool client name args
      | .person => handlePersonTool client name args
      | .misc => handleMiscTool client name args
      | .unknown =>
          (.error (.mcp ⟨.methodNotFound, "Outil inconnu: " ++ name⟩), [])
    match handled with
    | (.ok v, trace) => (.ok v, trace)
    | (.error f, trace) => (.error (normalizeToolError name f), trace)

/-! ## MCP resources (`ReadResourceRequestSchema` handler, stdio server) -/

/-- The outcome of one promise under `Promise.allSettled`. -/
inductive Settled (α : Type) where
  | fulfilled (v : α) : Settled α
  | rejected (reason : String) : Settled α

/-- One entry of the `kanta://risk-summaries` aggregate: either the fetched
summary or the degraded error object built in the per-item `catch`. -/
inductive RiskEntry where
  | ok (customer_id company_name vigilance_level : String) (risk_summary : Json)
  | degraded (customer_id company_name vigilance_level : String)

def RiskEntry.toJson : RiskEntry → Json
  | .ok cid cname vig rs =>
      .obj [("customer_id", .str cid), ("company_name", .str cname),
            ("vigilance_level", .str vig), ("risk_summary", rs)]
  | .degraded cid cname vig =>
      .obj [("customer_id", .str cid), ("company_name", .str cname),
            ("vigilance_level", .str vig),
            ("error", .str "Unable to fetch risk summary")]

/-- The async function mapped over `customers.data`: its body is wrapped in
`try`/`catch`, so the promise always fulfills — with the summary entry on
success and the error-marker entry on failure. -/
def riskEntryTask (fetch : String → Except ToolFailure Json)
    (c : CustomerBrief) : Settled RiskEntry :=
  match fetch c.id with
  | .ok rs => .fulfilled (.ok c.id c.company_name c.vigilance_level rs)
  | .error _ => .fulfilled (.degraded c.id c.company_name c.vigilance_level)

/-- The aggregate built by the `kanta://risk-summaries` branch:
`total_summaries` and `risk_summaries` are computed from the
`status === 'fulfilled'` filter over the settled results. -/
structure RiskAggregate where
  total_summaries : Nat
  risk_summaries : List RiskEntry

def riskSummariesResource (customers : List CustomerBrief)
    (fetch : String → Except ToolFailure Json) : RiskAggregate :=
  let settled := customers.map (riskEntryTask fetch)
  let successfulSummaries := settled.filterMap fun r =>
    match r with
    | .fulfilled v => some v
    | .rejected _ => none
  { total_summaries := successfulSummaries.length
    risk_summaries := successfulSummaries }

/-- Template-literal stringification of a thrown value
(`"...: " + error` renders a JS `Error` as `name: message`). -/
def failureText : ToolFailure → String
  | .err m => "Error: " ++ m
  | .zod issues => "ZodError: " ++ String.intercalate ", " issues
  | .mcp e => "McpError: " ++ e.msg
  | .unknown => "unknown"

/-- The `kanta://structure/organization` resource of `createServer`
(`src/index.ts`): `Promise.all([getFirms(), getUsers().catch(() => ({data: []}))])`
— a users failure degrades to an empty list, a firms failure rejects the
whole `Promise.all` and is re-thrown as an `InternalError`. -/
def orgSnapshot (firmsRes : Except ToolFailure PageResp)
    (usersRes : Except ToolFailure PageResp) (now : String) :
    Except McpErr Json :=
  let usersData : List Json :=
    match usersRes with
    | .ok u => u.data
    | .error _ => []
  match firmsRes with
  | .error e =>
      .error ⟨.internalError,
        "Erreur lors de la récupération de la structure: " ++ failureText e⟩
  | .ok firms =>
      .ok (.obj [("firms", .arr firms.data), ("users", .arr usersData),
                 ("last_updated", .str now)])

/-- `uri.match(/^kanta:\/\/customer\/([^\/]+)\/risk-summary$/)`: the captured
group is the nonempty, slash-free segment between the fixed pre/suffix. -/
def matchCustomerRiskUri (uri : String) : Option String :=
  let cs := uri.data
  let pre := "kanta://customer/".data
  let suf := "/risk-summary".data
  if pre.isPrefixOf cs then
    let rest := cs.drop pre.length
    if suf.length + 1 ≤ rest.length ∧ rest.drop (rest.length - suf.length) = suf then
      let mid := rest.take (rest.length - suf.length)
      if mid.all (fun c => !(c == '/')) then some (String.mk mid) else none
    else none
  else none

/-- `uri.match(/^kanta:\/\/files\/([^\/]+)$/)`. -/
def matchFileUri (uri : String) : Option String :=
  let cs := uri.data
  let pre := "kanta://files/".data
  if pre.isPrefixOf cs then
    let rest := cs.drop pre.length
    if rest.length ≥ 1 ∧ rest.all (fun c => !(c == '/')) then
      some (String.mk rest)
    else none
  else none

/-- The resource handler's `catch` block: `McpError`s re-thrown, `ZodError`s
and plain `Error`s wrapped as `InternalError`. -/
def normalizeResourceError (uri : String) : ToolFailure → McpErr
  | .mcp e => e
  | .zod issues =>
      ⟨.internalError,
        "Erreur de validation pour la ressource: " ++ String.intercalate ", " issues⟩
  | .err m =>
      ⟨.internalError, "Erreur lors de la lecture de la ressource: " ++ m⟩
  | .unknown =>
      ⟨.internalError, "Erreur inconnue lors de la lecture de la ressource " ++ uri⟩

def customerSummaryJson (c : CustomerBrief) : Json :=
  .obj [("id", .str c.id), ("company_name", .str c.company_name),
        ("state", c.state), ("vigilance_level", .str c.vigilance_level),
        ("code", c.code), ("creation_date", c.creation_date),
        ("risk_summary", c.risk_summary)]

/-- The `kanta://customer/{id}/risk-summary` branch after the URI match: the
UUID-pattern gate throws `InvalidParams` before any client call, then the
two client calls run in sequence. -/
def readCustomerRiskBranch (client : ClientStub) (now uri cid : String) :
    Except McpErr Json × List RemoteCall :=
  if !resourceUuidCheck cid then
    (.error ⟨.invalidParams, "ID client invalide: " ++ cid⟩, [])
  else
    match client.getCustomerRiskSummary cid with
    | .error f =>
        (.error (normalizeResourceError uri f), [.getCustomerRiskSummary cid])
    | .ok rs =>
        match client.getCustomer cid with
        | .error f =>
            (.error (normalizeResourceError uri f),
             [.getCustomerRiskSummary cid, .getCustomer cid])
        | .ok cust =>
            (.ok (.obj [("customer",
                          .obj [("id", .str cust.id),
                                ("company_name", .str cust.company_name),
                                ("vigilance_level", .str cust.vigilance_level),
                                ("state", cust.state)]),
                        ("risk_summary", rs), ("last_updated", .str now)]),
             [.getCustomerRiskSummary cid, .getCustomer cid])

/-- The `ReadResourceRequestSchema` handler (stdio server).  Unlike the
`CallToolRequestSchema` handler it never consults `isShuttingDown`; the flag
is a parameter here only so that this fact is expressible. -/
def readResourceHandler (_isShuttingDown : Bool) (client : ClientStub)
    (now : String) (uri : String) : Except McpErr Json × List RemoteCall :=
  if uri == "kanta://structure/organization" then
    -- Promise.all issues both calls; a users failure is caught to { data: [] }
    let firms := client.getFirmsPage none
    let users := client.getUsersPage none none
    let trace := [RemoteCall.getFirms none, RemoteCall.getUsers none none]
    let usersData : List Json :=
      match users with
      | .ok u => u.data
      | .error _ => []
    match firms with
    | .error f => (.error (normalizeResourceError uri f), trace)
    | .ok fp =>
        (.ok (.obj [("firms", .arr fp.data), ("users", .arr usersData),
                    ("last_updated", .str now)]), trace)
  else if uri == "kanta://customers/summary" then
    match client.getCustomersPage (some 100) none with
    | .error f =>
        (.error (normalizeResourceError uri f), [.getCustomers (some 100) none])
    | .ok page =>
        (.ok (.obj [("total_customers", .num page.total_data),
                    ("customers", .arr (page.data.map customerSummaryJson)),
                    ("last_updated", .str now)]),
         [.getCustomers (some 100) none])
  else if uri == "kanta://risk-summaries" then
    match client.getCustomersPage (some 50) none with
    | .error f =>
        (.error (normalizeResourceError uri f), [.getCustomers (some 50) none])
    | .ok page =>
        let agg := riskSummariesResource page.data client.getCustomerRiskSummary
        (.ok (.obj [("total_summaries", .num (agg.total_summaries : Int)),
                    ("risk_summaries", .arr (agg.risk_summaries.map RiskEntry.toJson)),
                    ("last_updated", .str now)]),
         RemoteCall.getCustomers (some 50) none
           :: page.data.map fun c => RemoteCall.getCustomerRiskSummary c.id)
  else
    match matchCustomerRiskUri uri with
    | some cid => readCustomerRiskBranch client now uri cid
    | none =>
        match matchFileUri uri with
        | some fid =>
            (.ok (.obj [("message", .str ("File access for ID: " ++ fid)),
                        ("note", .str "File binary download is handled via tools, not resources"),
                        ("available_tool", .str "download_file"),
                        ("last_updated", .str now)]), [])
        | none =>
            (.error ⟨.invalidRequest, "Resource non trouvée: " ++ uri⟩, [])

/-! ## Concrete stub and sample data used by closed theorems -/

/-- A stub client whose every endpoint succeeds with a minimal value. -/
def okStub : ClientStub where
  getCustomersPage := fun _ _ => .ok ⟨[], 0, 0, 0, 0⟩
  getCustomer := fun _ => .ok ⟨"", "", .null, "", .null, .null, .null⟩
  createCustomer := fun _ => .ok .null
  updateCustomer := fun _ _ => .ok .null
  searchCustomers := fun _ => .ok .null
  assignCustomers := fun _ => .ok .null
  getCustomerRiskSummary := fun _ => .ok (.obj [])
  getUsersPage := fun _ _ => .ok ⟨[], 0, 0, 0, 0⟩
  getUser := fun _ => .ok .null
  createUser := fun _ => .ok .null
  deleteUser := fun _ => .ok .null
  getPersonsPage := fun _ _ => .ok ⟨[], 0, 0, 0, 0⟩
  getPerson := fun _ => .ok .null
  getFirmsPage := fun _ => .ok ⟨[.str "firm1"], 1, 0, 0, 0⟩
  getStructure := .ok .null

/-- The per-customer outcome an aggregate entry is built from. -/
def riskEntryOf (fetch : String → Except ToolFailure Json)
    (c : CustomerBrief) : RiskEntry :=
  match fetch c.id with
  | .ok rs => .ok c.id c.company_name c.vigilance_level rs
  | .error _ => .degraded c.id c.company_name c.vigilance_level

theorem riskEntryTask_fulfilled (fetch : String → Except ToolFailure Json)
    (c : CustomerBrief) :
    riskEntryTask fetch c = .fulfilled (riskEntryOf fetch c) := by
  unfold riskEntryTask riskEntryOf
  cases fetch c.id <;> rfl

/-- Three customers for the fan-out scenarios; the fetch fails for `cB` only. -/
def cA : CustomerBrief := ⟨"a1", "Alpha", .null, "low", .null, .null, .null⟩

def cB : CustomerBrief := ⟨"b2", "Beta", .null, "medium", .null, .null, .null⟩

def cC : CustomerBrief := ⟨"c3", "Gamma", .null, "high", .null, .null, .null⟩

def failOnB : String → Except ToolFailure Json := fun id =>
  if id == "b2" then .error (.err (httpErrorMsg 500 "boom")) else .ok (.obj [])

/-! ## C9 — dispatcher routing -/

/-- C9: the dispatcher routes tool names by prefix/substring markers with
the customer group checked first; `"get_customer"` always routes to the
customer group, any name matching the customer markers routes there, and an
unmatched name such as `"foo_bar"` falls through to the unknown-operation
case. -/
theorem C9_dispatcher_routing :
    routeTool "get_customer" = RouteGroup.customer
    ∧ routeTool "foo_bar" = RouteGroup.unknown
    ∧ ∀ name : String, customerToolMarkers name = true →
        routeTool name = RouteGroup.customer := by
  refine ⟨by decide, by decide, ?_⟩
  intro name h
  simp [routeTool, h]

/-- Witness for C9 at a concrete customer-marker name. -/
theorem C9_dispatcher_routing_witness :
    customerToolMarkers "assign_customers" = true
    ∧ routeTool "assign_customers" = RouteGroup.customer :=
  ⟨by decide, C9_dispatcher_routing.2.2 "assign_customers" (by decide)⟩

/-! ## C10 — organization-snapshot asymmetry -/

/-- C10: in the `kanta://structure/organization` snapshot, a users-fetch
failure degrades to an empty users list with firms intact, while a
firms-fetch failure fails the whole read with an internal error and no
partial result. -/
theorem C10_org_snapshot_asymmetry :
    (∀ (firms : PageResp) (e : ToolFailure) (now : String),
        orgSnapshot (.ok firms) (.error e) now
          = .ok (.obj [("firms", .arr firms.data), ("users", .arr []),
                       ("last_updated", .str now)]))
    ∧ (∀ (e : ToolFailure) (usersRes : Except ToolFailure PageResp) (now : String),
        orgSnapshot (.error e) usersRes now
          = .error ⟨.internalError,
              "Erreur lors de la récupération de la structure: " ++ failureText e⟩)
    ∧ (∀ (firms users : PageResp) (now : String),
        orgSnapshot (.ok firms) (.ok users) now
          = .ok (.obj [("firms", .arr firms.data), ("users", .arr users.data),
                       ("last_updated", .str now)])) := by
  refine ⟨fun firms e now => rfl, fun e usersRes now => ?_, fun firms users now => rfl⟩
  cases usersRes <;> rfl

/-! ## C1 — risk-summaries fan-out aggregate -/

/-- C1 counterexample: with 3 customers and the risk-summary fetch failing
for exactly one of them, the aggregate contains 3 entries (one of them the
degraded error-marker entry) and reports `total_summaries = 3`, not the 2
successful entries / count of 2 the claim states. -/
theorem C1_counterexample :
    (riskSummariesResource [cA, cB, cC] failOnB).total_summaries = 3
    ∧ (riskSummariesResource [cA, cB, cC] failOnB).total_summaries ≠ 2
    ∧ (riskSummariesResource [cA, cB, cC] failOnB).risk_summaries
        = [.ok "a1" "Alpha" "low" (.obj []),
           .degraded "b2" "Beta" "medium",
           .ok "c3" "Gamma" "high" (.obj [])] := by
  refine ⟨rfl, by decide, rfl⟩

/-- C1 (amended): the aggregate never raises a batch-level error for a
per-item failure, but it reports one entry per fetched customer — the
failing ones as error-marker entries — and `total_summaries` counts all of
them (every settled promise is fulfilled because the per-item `catch`
swallows the failure). -/
theorem C1_risk_summaries_amended :
    ∀ (customers : List CustomerBrief)
      (fetch : String → Except ToolFailure Json),
      (riskSummariesResource customers fetch).total_summaries = customers.length
      ∧ (riskSummariesResource customers fetch).risk_summaries
          = customers.map (riskEntryOf fetch) := by
  intro customers fetch
  have hfun : riskEntryTask fetch = fun c => Settled.fulfilled (riskEntryOf fetch c) :=
    funext fun c => riskEntryTask_fulfilled fetch c
  have hlist : (customers.map (riskEntryTask fetch)).filterMap
      (fun r => match r with
                | Settled.fulfilled v => some v
                | Settled.rejected _ => none)
      = customers.map (riskEntryOf fetch) := by
    rw [hfun, List.filterMap_map]
    exact List.filterMap_eq_map_iff_forall_eq_some.mpr (fun c _ => rfl) ▸ rfl
  constructor
  · show ((customers.map (riskEntryTask fetch)).filterMap _).length = _
    rw [hlist, List.length_map]
  · show (customers.map (riskEntryTask fetch)).filterMap _ = _
    exact hlist

/-! ## C4 — shutdown gate -/

/-- C4 counterexample: with the shutdown flag set, a resource read is not
rejected — the `ReadResourceRequestSchema` handler never consults the flag —
and it still performs its two remote calls. -/
theorem C4_counterexample :
    readResourceHandler true okStub "T" "kanta://structure/organization"
      = (.ok (.obj [("firms", .arr [.str "firm1"]), ("users", .arr []),
                    ("last_updated", .str "T")]),
         [RemoteCall.getFirms none, RemoteCall.getUsers none none])
    ∧ (readResourceHandler true okStub "T" "kanta://structure/organization").2 ≠ [] := by
  refine ⟨rfl, by decide⟩

/-- C4 (amended): once the shutdown flag is set, every subsequently received
tool call is rejected immediately (internal-error "Server is shutting down")
with zero remote calls; resource reads, however, are not gated by the flag
and still perform their remote calls. -/
theorem C4_shutdown_gate_amended :
    (∀ (client : ClientStub) (name : String) (args : Json),
        callToolHandler true client name args
          = (.error ⟨.internalError, "Server is shutting down"⟩, []))
    ∧ (readResourceHandler true okStub "T" "kanta://structure/organization").2
        = [RemoteCall.getFirms none, RemoteCall.getUsers none none] := by
  exact ⟨fun client name args => rfl, rfl⟩

/-! Reduction lemmas for the `Except` monad used by the argument parsers. -/

@[simp] theorem exceptBind_ok {ε α β : Type} (a : α) (f : α → Except ε β) :
    (Except.ok a >>= f : Except ε β) = f a := rfl

@[simp] theorem exceptBind_error {ε α β : Type} (e : ε) (f : α → Except ε β) :
    ((Except.error e : Except ε α) >>= f : Except ε β) = Except.error e := rfl

@[simp] theorem exceptMap_ok {ε α β : Type} (a : α) (f : α → β) :
    (f <$> (Except.ok a : Except ε α)) = Except.ok (f a) := rfl

@[simp] theorem exceptMap_error {ε α β : Type} (e : ε) (f : α → β) :
    (f <$> (Except.error e : Except ε α)) = Except.error e := rfl

/-! ## C3 — pagination validation -/

/-- C3 counterexample: `get_users` carries pagination arguments but performs
no local validation — with `per_page = 200` (outside [1,100]) the handler
does not fail and issues the remote call. -/
theorem C3_counterexample :
    handleUserTool okStub "get_users" (.obj [("per_page", .num 200)])
      = (.ok (.obj [("data", .arr []), ("total_data", .num 0),
                    ("per_page", .num 0), ("current_page", .num 0),
                    ("total_page", .num 0)]),
         [RemoteCall.getUsers (some 200) none])
    ∧ (handleUserTool okStub "get_users" (.obj [("per_page", .num 200)])).2 ≠ [] := by
  refine ⟨rfl, by decide⟩

/-- C3 (amended): out-of-bounds pagination (`per_page` outside [1,100] or
`page < 1`) fails with a local validation error and no remote call for the
customer operations (`get_customers`, `search_customers`), which zod-parse
their arguments; `get_users`, `get_persons` and `get_firms` cast their
arguments without validation and always issue the remote call, passing the
(truthiness-filtered) values through. -/
theorem C3_pagination_amended :
    ∀ (client : ClientStub) (n : Int),
      ((n < 1 ∨ 100 < n) →
        handleCustomerTool client "get_customers" (.obj [("per_page", .num n)])
          = (.error (.zod ["per_page"]), [])
        ∧ handleCustomerTool client "search_customers" (.obj [("per_page", .num n)])
          = (.error (.zod ["per_page"]), []))
      ∧ (n < 1 →
        handleCustomerTool client "get_customers" (.obj [("page", .num n)])
          = (.error (.zod ["page"]), [])
        ∧ handleCustomerTool client "search_customers" (.obj [("page", .num n)])
          = (.error (.zod ["page"]), []))
      ∧ handleUserTool client "get_users" (.obj [("per_page", .num n)])
          = ((client.getUsersPage (jsTruthy (some n)) none).map PageResp.toJson,
             [RemoteCall.getUsers (jsTruthy (some n)) none])
      ∧ handlePersonTool client "get_persons" (.obj [("per_page", .num n)])
          = ((client.getPersonsPage (jsTruthy (some n)) none).map PageResp.toJson,
             [RemoteCall.getPersons (jsTruthy (some n)) none])
      ∧ handleMiscTool client "get_firms" (.obj [("per_page", .num n)])
          = ((client.getFirmsPage (jsTruthy (some n))).map PageResp.toJson,
             [RemoteCall.getFirms (jsTruthy (some n))]) := by
  intro client n
  refine ⟨fun hn => ⟨?_, ?_⟩, fun hn => ⟨?_, ?_⟩, rfl, rfl, rfl⟩
  · have hc : ¬((1:Int) ≤ n ∧ n ≤ 100) := by rcases hn with h | h <;> omega
    simp [handleCustomerTool, parsePaginationArgs, zodObj, Json.isObj,
      zodOptNum, Json.lookup, List.lookup, hc]
  · have hc : ¬((1:Int) ≤ n ∧ n ≤ 100) := by rcases hn with h | h <;> omega
    simp [handleCustomerTool, SearchCustomersArgs_parse, zodObj, Json.isObj,
      zodOptNum, zodOptStrCheck, Json.lookup, List.lookup, hc]
  · have hc : ¬((1:Int) ≤ n) := by omega
    simp [handleCustomerTool, parsePaginationArgs, zodObj, Json.isObj,
      zodOptNum, Json.lookup, List.lookup, hc]
  · have hc : ¬((1:Int) ≤ n) := by omega
    simp [handleCustomerTool, SearchCustomersArgs_parse, zodObj, Json.isObj,
      zodOptNum, zodOptStrCheck, Json.lookup, List.lookup, hc]

/-- Witness for C3 at `per_page = 0`. -/
theorem C3_pagination_witness :
    ((0:Int) < 1 ∨ 100 < (0:Int))
    ∧ handleCustomerTool okStub "get_customers" (.obj [("per_page", .num 0)])
        = (.error (.zod ["per_page"]), []) :=
  ⟨Or.inl (by decide),
   ((C3_pagination_amended okStub 0).1 (Or.inl (by decide))).1⟩

/-! ## C7 — assignment: omitted vs. explicitly empty -/

/-- C7: for `assign_customers`, an omitted `supervisor` argument produces an
outgoing body with no `supervisor` key, while an explicit empty
`contributors` list produces a body whose `contributors` key is bound to the
empty array; omitted and empty are never conflated. -/
theorem C7_assignment_body :
    ∀ (args : Json) (req : AssignmentReq),
      AssignmentRequestSchema_parse args = .ok req →
        (args.lookup "supervisor" = none →
          (assignCustomersBody req).lookup "supervisor" = none)
        ∧ (args.lookup "contributors" = some (.arr []) →
          (assignCustomersBody req).lookup "contributors" = some (.arr [])) := by
  intro args req h
  cases hobj : zodObj args with
  | error e => simp [AssignmentRequestSchema_parse, hobj] at h
  | ok u =>
    cases hcust : zodReqUuidArray args "customers" with
    | error e => simp [AssignmentRequestSchema_parse, hobj, hcust] at h
    | ok customers =>
      cases hsup : zodOptStrCheck args "supervisor" uuidCheck with
      | error e => simp [AssignmentRequestSchema_parse, hobj, hcust, hsup] at h
      | ok sup =>
        cases hcon : zodOptUuidArray args "contributors" with
        | error e =>
            simp [AssignmentRequestSchema_parse, hobj, hcust, hsup, hcon] at h
        | ok con =>
          cases hfirm : zodOptStrCheck args "firm" uuidCheck with
          | error e =>
              simp [AssignmentRequestSchema_parse, hobj, hcust, hsup, hcon,
                hfirm] at h
          | ok firm =>
            have hreq : req = ⟨customers, sup, con, firm⟩ := by
              simp [AssignmentRequestSchema_parse, hobj, hcust, hsup, hcon,
                hfirm] at h
              exact h.symm
            subst hreq
            constructor
            · intro hnosup
              have hs : sup = none := by
                unfold zodOptStrCheck at hsup
                rw [hnosup] at hsup
                exact (Except.ok.injEq _ _ ▸ hsup).symm
              subst hs
              cases con <;> cases firm <;>
                simp [assignCustomersBody, optField, List.lookup]
            · intro hconArr
              have hc : con = some [] := by
                unfold zodOptUuidArray at hcon
                rw [hconArr] at hcon
                simpa [mapMOpt] using hcon.symm
              subst hc
              cases sup <;> cases firm <;>
                simp [assignCustomersBody, optField, List.lookup]

/-- Witness arguments for C7: one valid customer id, `supervisor` omitted,
`contributors` explicitly empty. -/
def c7args : Json :=
  .obj [("customers", .arr [.str "123e4567-e89b-12d3-a456-426614174000"]),
        ("contributors", .arr [])]

def c7req : AssignmentReq :=
  ⟨["123e4567-e89b-12d3-a456-426614174000"], none, some [], none⟩

/-- Witness for C7 at the concrete arguments. -/
theorem C7_assignment_body_witness :
    AssignmentRequestSchema_parse c7args = .ok c7req
    ∧ (assignCustomersBody c7req).lookup "supervisor" = none
    ∧ (assignCustomersBody c7req).lookup "contributors" = some (.arr []) := by
  have h : AssignmentRequestSchema_parse c7args = .ok c7req := by rfl
  exact ⟨h, (C7_assignment_body c7args c7req h).1 (by rfl),
         (C7_assignment_body c7args c7req h).2 (by rfl)⟩

/-! ## C8 — UUID-typed arguments fail fast -/

/-- C8: every tool handler zod-parses its UUID-typed arguments before
calling the client, so a malformed UUID fails with a local validation error
and the remote component is never invoked — covering every UUID-carrying
operation: `get_customer`, `get_customer_risk_summary`, `update_customer`,
`get_user`, `delete_user`, `get_person`, `download_file`,
`assign_customers`, `create_customer` (`supervisor`), `create_user`
(`default_supervisor`, `default_contributor`, `firms`) and
`upload_person_document` (`id`). -/
theorem C8_uuid_args_fail_fast :
    ∀ (client : ClientStub) (s : String), uuidCheck s = false →
      handleCustomerTool client "get_customer" (.obj [("id", .str s)])
        = (.error (.zod ["id"]), [])
      ∧ handleCustomerTool client "get_customer_risk_summary" (.obj [("id", .str s)])
        = (.error (.zod ["id"]), [])
      ∧ handleCustomerTool client "update_customer" (.obj [("id", .str s)])
        = (.error (.zod ["id"]), [])
      ∧ handleUserTool client "get_user" (.obj [("id", .str s)])
        = (.error (.zod ["id"]), [])
      ∧ handleUserTool client "delete_user" (.obj [("id", .str s)])
        = (.error (.zod ["id"]), [])
      ∧ handlePersonTool client "get_person" (.obj [("id", .str s)])
        = (.error (.zod ["id"]), [])
      ∧ handleMiscTool client "download_file" (.obj [("id", .str s)])
        = (.error (.zod ["id"]), [])
      ∧ handleCustomerTool client "assign_customers"
          (.obj [("customers", .arr [.str s])])
        = (.error (.zod ["customers"]), [])
      ∧ handleCustomerTool client "create_customer"
          (.obj [("company_number", .str "123"), ("supervisor", .str s)])
        = (.error (.zod ["supervisor"]), [])
      ∧ handleUserTool client "create_user"
          (.obj [("firstname", .str "A"), ("lastname", .str "B"),
                 ("email", .str "a@b.co"), ("role", .str "controller"),
                 ("default_supervisor", .str s)])
        = (.error (.zod ["default_supervisor"]), [])
      ∧ handleUserTool client "create_user"
          (.obj [("firstname", .str "A"), ("lastname", .str "B"),
                 ("email", .str "a@b.co"), ("role", .str "controller"),
                 ("default_contributor", .str s)])
        = (.error (.zod ["default_contributor"]), [])
      ∧ handleUserTool client "create_user"
          (.obj [("firstname", .str "A"), ("lastname", .str "B"),
                 ("email", .str "a@b.co"), ("role", .str "controller"),
                 ("firms", .arr [.str s])])
        = (.error (.zod ["firms"]), [])
      ∧ handlePersonTool client "upload_person_document"
          (.obj [("id", .str s), ("file_paths", .arr [.str "f.pdf"])])
        = (.error (.zod ["id"]), []) := by
  intro client s h
  refine ⟨?_, ?_, ?_, ?_, ?_, ?_, ?_, ?_, ?_, ?_, ?_, ?_, ?_⟩
  · simp [handleCustomerTool, parseIdArg, zodObj, Json.isObj, zodReqStrCheck,
      Json.lookup, List.lookup, h]
  · simp [handleCustomerTool, parseIdArg, zodObj, Json.isObj, zodReqStrCheck,
      Json.lookup, List.lookup, h]
  · simp [handleCustomerTool, UpdateCustomerRequestSchema_parse, zodObj,
      Json.isObj, zodReqStrCheck, Json.lookup, List.lookup, h]
  · simp [handleUserTool, parseIdArg, zodObj, Json.isObj, zodReqStrCheck,
      Json.lookup, List.lookup, h]
  · simp [handleUserTool, parseIdArg, zodObj, Json.isObj, zodReqStrCheck,
      Json.lookup, List.lookup, h]
  · simp [handlePersonTool, parseIdArg, zodObj, Json.isObj, zodReqStrCheck,
      Json.lookup, List.lookup, h]
  · simp [handleMiscTool, parseIdArg, zodObj, Json.isObj, zodReqStrCheck,
      Json.lookup, List.lookup, h]
  · simp [handleCustomerTool, AssignmentRequestSchema_parse, zodObj,
      Json.isObj, zodReqUuidArray, mapMOpt, zGuard, Json.lookup, List.lookup, h]
  · simp [handleCustomerTool, CreateCustomerRequestSchema_parse, zodObj,
      Json.isObj, zodReqStrCheck, zodOptStrCheck, alwaysTrue, Json.lookup,
      List.lookup, h]
  · have he : emailCheck "a@b.co" = true := by decide
    simp [handleUserTool, CreateUserRequestSchema_parse, zodObj, Json.isObj,
      zodReqStrCheck, zodReqEnum, zodOptStrCheck, alwaysTrue, userRoleTokens,
      Json.lookup, List.lookup, he, h]
  · have he : emailCheck "a@b.co" = true := by decide
    simp [handleUserTool, CreateUserRequestSchema_parse, zodObj, Json.isObj,
      zodReqStrCheck, zodReqEnum, zodOptStrCheck, alwaysTrue, userRoleTokens,
      Json.lookup, List.lookup, he, h]
  · have he : emailCheck "a@b.co" = true := by decide
    simp [handleUserTool, CreateUserRequestSchema_parse, zodObj, Json.isObj,
      zodReqStrCheck, zodReqEnum, zodOptStrCheck, zodOptUuidArray, mapMOpt,
      zGuard, alwaysTrue, userRoleTokens, Json.lookup, List.lookup, he, h]
  · simp [handlePersonTool, UploadPersonDocArgs_parse, zodObj, Json.isObj,
      zodReqStrCheck, Json.lookup, List.lookup, h]

/-- Witness for C8 at the malformed id `"not-a-uuid"`. -/
theorem C8_uuid_args_fail_fast_witness :
    uuidCheck "not-a-uuid" = false
    ∧ handleCustomerTool okStub "get_customer" (.obj [("id", .str "not-a-uuid")])
        = (.error (.zod ["id"]), []) :=
  ⟨by decide, (C8_uuid_args_fail_fast okStub "not-a-uuid" (by decide)).1⟩

/-! ## C6 — resource-name UUID validation -/

/-- C6 counterexample: the nil UUID is a standard 8-4-4-4-12 hyphenated-hex
string, accepted by the tool-argument UUID validator, yet rejected by the
resource-URI regex (whose third group must start with `4` and fourth with
`8/9/a/b`): the two validators are not the same pattern, and not every
tool-accepted ID is resource-accepted. -/
theorem C6_counterexample :
    uuidCheck "00000000-0000-0000-0000-000000000000" = true
    ∧ resourceUuidCheck "00000000-0000-0000-0000-000000000000" = false := by
  exact ⟨by decide, by decide⟩

/-- C6 (amended): the resource-name validator is strictly stronger than the
tool-argument validator — every ID it accepts is also tool-accepted (the
converse inclusion fails, see the counterexample) — and a malformed ID is
rejected with `InvalidParams` before any remote call. -/
theorem C6_resource_uuid_gate :
    (∀ s : String, resourceUuidCheck s = true → uuidCheck s = true)
    ∧ (∀ (client : ClientStub) (now uri cid : String),
        resourceUuidCheck cid = false →
          readCustomerRiskBranch client now uri cid
            = (.error ⟨.invalidParams, "ID client invalide: " ++ cid⟩, [])) := by
  constructor
  · intro s h
    unfold resourceUuidCheck at h
    unfold uuidCheck
    simp only [Bool.and_eq_true, List.all_eq_true, List.any_eq_true,
      beq_iff_eq] at h ⊢
    obtain ⟨⟨⟨⟨hlen, hdash⟩, hhex⟩, h14⟩, h19⟩ := h
    refine ⟨⟨hlen, hdash⟩, ?_⟩
    intro i hi
    have hsub : ∀ j ∈ uuidHexIdx, j = 14 ∨ j = 19 ∨ j ∈ resourceHexIdx := by
      decide
    rcases hsub i hi with rfl | rfl | hmem
    · rw [h14]; decide
    · obtain ⟨c, hc, hceq⟩ := h19
      rw [hceq]
      fin_cases hc <;> decide
    · exact hhex i hmem
  · intro client now uri cid h
    simp [readCustomerRiskBranch, h]

/-- Witness for C6: a version-4, variant-8 UUID passes both validators, and
a malformed id is rejected by the resource branch with no remote call. -/
theorem C6_resource_uuid_gate_witness :
    uuidCheck "123e4567-e89b-42d3-a456-426614174000" = true
    ∧ readCustomerRiskBranch okStub "T" "u" "zzz"
        = (.error ⟨.invalidParams, "ID client invalide: " ++ "zzz"⟩, []) :=
  ⟨C6_resource_uuid_gate.1 "123e4567-e89b-42d3-a456-426614174000" (by decide),
   C6_resource_uuid_gate.2 okStub "T" "u" "zzz" (by decide)⟩

/-! ## C5 — status-code error mapping -/

theorem listContainsSub_nil_pat (l : List Char) : listContainsSub [] l = true := by
  cases l <;> simp [listContainsSub, List.isPrefixOf]

theorem listContainsSub_self_append (p r : List Char) :
    listContainsSub p (p ++ r) = true := by
  cases p with
  | nil => simpa using listContainsSub_nil_pat r
  | cons x xs =>
    show listContainsSub (x :: xs) (x :: (xs ++ r)) = true
    simp only [listContainsSub, Bool.or_eq_true]
    exact Or.inl (List.isPrefixOf_iff_prefix.mpr (List.prefix_append _ _))

theorem listContainsSub_append_of (p a b : List Char) :
    listContainsSub p (a ++ (p ++ b)) = true := by
  induction a with
  | nil => simpa using listContainsSub_self_append p b
  | cons x xs ih =>
    show listContainsSub p (x :: (xs ++ (p ++ b))) = true
    cases p with
    | nil => exact listContainsSub_nil_pat _
    | cons y ys =>
      simp only [listContainsSub, Bool.or_eq_true]
      exact Or.inr (by simpa using ih)

theorem strData_append (s t : String) : (s ++ t).data = s.data ++ t.data := by
  cases s; cases t; rfl

/-- If the pattern occurs by construction (`s = a ++ pat ++ b` at the
character level), `s.includes(pat)` holds. -/
theorem strContains_of_append {s pat : String} (a b : List Char)
    (h : s.data = a ++ (pat.data ++ b)) : strContains s pat = true := by
  unfold strContains
  rw [h]
  exact listContainsSub_append_of _ a b

/-- The message of a non-2xx transport failure always contains its own
`"HTTP <status>"` marker. -/
theorem httpErrorMsg_has_marker (status : Nat) (body : String) :
    strContains (httpErrorMsg status body) ("HTTP " ++ toString status) = true := by
  apply strContains_of_append [] (": ".data ++ body.data)
  show ((("HTTP " ++ toString status) ++ ": ") ++ body).data = _
  simp [strData_append, List.append_assoc]

/-- The ten message markers inspected by the error-normalization chain. -/
def errorMarkers : List String :=
  ["HTTP 400", "Bad Request", "HTTP 401", "Unauthorized", "HTTP 403",
   "Forbidden", "HTTP 404", "Not Found", "timeout", "TIMEOUT"]

/-- `m` contains none of the given markers. -/
def markersClear (m : String) (pats : List String) : Bool :=
  pats.all fun p => !(strContains m p)

theorem markersClear_spec {m : String} {pats : List String}
    (h : markersClear m pats = true) :
    ∀ p ∈ pats, strContains m p = false := by
  intro p hp
  have := List.all_eq_true.mp h p hp
  simpa using this

/-- C5 counterexample: a status-500 response whose body text happens to
contain `"Bad Request"` is mapped to the invalid-parameters error, not to
the generic execution error the claim requires for "any other non-2xx" —
the mapping is substring-based, not status-based. -/
theorem C5_counterexample :
    normalizeToolError "tool" (.err (httpErrorMsg 500 "Bad Request"))
      = ⟨.invalidParams, "Paramètres invalides: HTTP 500: Bad Request"⟩
    ∧ (normalizeToolError "tool" (.err (httpErrorMsg 500 "Bad Request"))).code
        ≠ ErrCode.internalError := by
  exact ⟨by decide, by decide⟩

/-- C5 (amended): the dispatcher classifies a transport failure by substring
tests on the message `"HTTP <status>: <body>"`, which agrees with the
claimed by-status mapping whenever the body does not itself contain an
earlier branch's marker: 400 always maps to invalid-parameters, 401/403/404
map to unauthorized/forbidden/not-found under that proviso, the abort
timeout maps to the timeout-class internal error, and a message free of all
ten markers maps to the generic execution error, whose text carries the
original status and body; every failure is normalized to a typed
`McpError`. -/
theorem C5_error_mapping_amended :
    ∀ (toolName body : String),
      (normalizeToolError toolName (.err (httpErrorMsg 400 body))
         = ⟨.invalidParams, "Paramètres invalides: " ++ httpErrorMsg 400 body⟩)
      ∧ (markersClear (httpErrorMsg 401 body) ["HTTP 400", "Bad Request"] = true →
          normalizeToolError toolName (.err (httpErrorMsg 401 body))
            = ⟨.invalidRequest, "Non autorisé: Vérifiez votre clé API"⟩)
      ∧ (markersClear (httpErrorMsg 403 body)
            ["HTTP 400", "Bad Request", "HTTP 401", "Unauthorized"] = true →
          normalizeToolError toolName (.err (httpErrorMsg 403 body))
            = ⟨.invalidRequest, "Accès refusé: " ++ httpErrorMsg 403 body⟩)
      ∧ (markersClear (httpErrorMsg 404 body)
            ["HTTP 400", "Bad Request", "HTTP 401", "Unauthorized", "HTTP 403",
             "Forbidden"] = true →
          normalizeToolError toolName (.err (httpErrorMsg 404 body))
            = ⟨.invalidRequest, "Ressource non trouvée: " ++ httpErrorMsg 404 body⟩)
      ∧ (normalizeToolError toolName (.err (timeoutErrorMsg 30000))
           = ⟨.internalError, "Timeout de requête: " ++ timeoutErrorMsg 30000⟩)
      ∧ (∀ status : Nat,
          markersClear (httpErrorMsg status body) errorMarkers = true →
            normalizeToolError toolName (.err (httpErrorMsg status body))
              = ⟨.internalError,
                 "Erreur lors de l\x27exécution: " ++ httpErrorMsg status body⟩
            ∧ strContains
                ("Erreur lors de l\x27exécution: " ++ httpErrorMsg status body)
                (toString status) = true
            ∧ strContains
                ("Erreur lors de l\x27exécution: " ++ httpErrorMsg status body)
                body = true) := by
  intro toolName body
  refine ⟨?_, ?_, ?_, ?_, ?_, ?_⟩
  · have hpos : strContains (httpErrorMsg 400 body) "HTTP 400" = true := by
      have := httpErrorMsg_has_marker 400 body
      simpa using this
    simp [normalizeToolError, hpos]
  · intro h
    have hf := markersClear_spec h
    have hpos : strContains (httpErrorMsg 401 body) "HTTP 401" = true := by
      have := httpErrorMsg_has_marker 401 body
      simpa using this
    simp [normalizeToolError, hf "HTTP 400" (by simp), hf "Bad Request" (by simp),
      hpos]
  · intro h
    have hf := markersClear_spec h
    have hpos : strContains (httpErrorMsg 403 body) "HTTP 403" = true := by
      have := httpErrorMsg_has_marker 403 body
      simpa using this
    simp [normalizeToolError, hf "HTTP 400" (by simp), hf "Bad Request" (by simp),
      hf "HTTP 401" (by simp), hf "Unauthorized" (by simp), hpos]
  · intro h
    have hf := markersClear_spec h
    have hpos : strContains (httpErrorMsg 404 body) "HTTP 404" = true := by
      have := httpErrorMsg_has_marker 404 body
      simpa using this
    simp [normalizeToolError, hf "HTTP 400" (by simp), hf "Bad Request" (by simp),
      hf "HTTP 401" (by simp), hf "Unauthorized" (by simp),
      hf "HTTP 403" (by simp), hf "Forbidden" (by simp), hpos]
  · have h1 : strContains (timeoutErrorMsg 30000) "HTTP 400" = false := by decide
    have h2 : strContains (timeoutErrorMsg 30000) "Bad Request" = false := by decide
    have h3 : strContains (timeoutErrorMsg 30000) "HTTP 401" = false := by decide
    have h4 : strContains (timeoutErrorMsg 30000) "Unauthorized" = false := by decide
    have h5 : strContains (timeoutErrorMsg 30000) "HTTP 403" = false := by decide
    have h6 : strContains (timeoutErrorMsg 30000) "Forbidden" = false := by decide
    have h7 : strContains (timeoutErrorMsg 30000) "HTTP 404" = false := by decide
    have h8 : strContains (timeoutErrorMsg 30000) "Not Found" = false := by decide
    have h9 : strContains (timeoutErrorMsg 30000) "timeout" = true := by decide
    simp [normalizeToolError, h1, h2, h3, h4, h5, h6, h7, h8, h9]
  · intro status h
    have hf := markersClear_spec h
    refine ⟨?_, ?_, ?_⟩
    · simp [normalizeToolError, hf "HTTP 400" (by simp [errorMarkers]),
        hf "Bad Request" (by simp [errorMarkers]),
        hf "HTTP 401" (by simp [errorMarkers]),
        hf "Unauthorized" (by simp [errorMarkers]),
        hf "HTTP 403" (by simp [errorMarkers]),
        hf "Forbidden" (by simp [errorMarkers]),
        hf "HTTP 404" (by simp [errorMarkers]),
        hf "Not Found" (by simp [errorMarkers]),
        hf "timeout" (by simp [errorMarkers]),
        hf "TIMEOUT" (by simp [errorMarkers])]
    · apply strContains_of_append
        ("Erreur lors de l\x27exécution: ".data ++ "HTTP ".data)
        (": ".data ++ body.data)
      show ("Erreur lors de l\x27exécution: "
              ++ ((("HTTP " ++ toString status) ++ ": ") ++ body)).data = _
      simp [strData_append, List.append_assoc]
    · apply strContains_of_append
        ("Erreur lors de l\x27exécution: ".data ++ "HTTP ".data
          ++ (toString status).data ++ ": ".data) []
      show ("Erreur lors de l\x27exécution: "
              ++ ((("HTTP " ++ toString status) ++ ": ") ++ body)).data = _
      simp [strData_append, List.append_assoc]

/-- Witness for C5 at status 500 with a marker-free body. -/
theorem C5_error_mapping_witness :
    markersClear (httpErrorMsg 500 "boom") errorMarkers = true
    ∧ normalizeToolError "get_customer" (.err (httpErrorMsg 500 "boom"))
        = ⟨.internalError,
           "Erreur lors de l\x27exécution: " ++ httpErrorMsg 500 "boom"⟩ :=
  ⟨by decide,
   ((C5_error_mapping_amended "get_customer" "boom").2.2.2.2.2 500 (by decide)).1⟩

/-! ## C2 — Customer round-trip and risk-token normalization -/

/-- A minimal valid `Customer` payload (uppercase risk tokens where the
claim exercises the normalization). -/
def sampleCustomer : Customer :=
  { id := "123e4567-e89b-12d3-a456-426614174000"
    legal_type_code := none
    legal_type_label := none
    code := none
    company_name := "ACME"
    company_number := none
    company_country := none
    email := .absent
    phone := .absent
    creation_date := none
    fiscal_year_end_date := none
    activity_list := []
    address_list := []
    person_list := []
    mission_list := []
    relationship_start_date := none
    state := "valid"
    relationship_end_date := .absent
    accountant_choice_reason := .absent
    relationship_description := .absent
    vigilance_level := "High"
    risk_summary := ⟨"Low", "medium", "standard", "enhanced"⟩
    diligences := []
    observation := .absent
    turnover := .absent
    affectation_list := []
    document_list := [] }

/-- The expected output for `sampleCustomer`. -/
def sampleCustomerOut : Customer :=
  { sampleCustomer with
    vigilance_level := "high"
    risk_summary := ⟨"low", "medium", "standard", "enhanced"⟩ }

/-- C2 counterexample: the token `"Enhanced"` is not in `RiskLevelSchema`'s
enum (`enhanced` appears only in lowercase), so a payload carrying it fails
validation instead of normalizing to `"enhanced"` as the claim states. -/
theorem C2_counterexample :
    RiskLevelSchema_parse "Enhanced" = none
    ∧ CustomerResourceSchema_parse
        { sampleCustomer with vigilance_level := "Enhanced" } = none := by
  exact ⟨by decide, by rfl⟩

/-- C2 (amended): a valid `Customer` payload validates to exactly the
normalized payload — every declared field is preserved, with risk-level
tokens lowercased (and affectation ids stringified) — and every accepted
risk token lands in the canonical lowercase vocabulary; in particular
`"High"` yields `"high"` and `"enhanced"` yields `"enhanced"`, while
`"Enhanced"` is rejected (see the counterexample). -/
theorem C2_customer_roundtrip_amended :
    ∀ (p c : Customer), CustomerResourceSchema_parse p = some c →
      c = Customer_norm p
      ∧ c.vigilance_level = strToLower p.vigilance_level
      ∧ c.vigilance_level ∈ canonicalRiskTokens
      ∧ c.risk_summary.location ∈ canonicalRiskTokens
      ∧ c.risk_summary.activity ∈ canonicalRiskTokens
      ∧ c.risk_summary.mission ∈ canonicalRiskTokens
      ∧ c.risk_summary.customer ∈ canonicalRiskTokens := by
  intro p c h
  have hnorm := Customer_parse_norm h
  subst hnorm
  simp only [CustomerResourceSchema_parse, Option.bind_eq_some,
    Option.some.injEq] at h
  obtain ⟨id0, hid0, email, hem, acts, hacts, addrs, haddrs, persons, hpers,
    missions, hmiss, state, hstate, vig, hvig, rs, hrs, affs, haffs,
    docs, hdocs, heq⟩ := h
  simp only [RiskSummarySchema_parse, Option.bind_eq_some,
    Option.some.injEq] at hrs
  obtain ⟨l2, hl2, a2, ha2, m2, hm2, c2, hc2, hrseq⟩ := hrs
  refine ⟨rfl, rfl, ?_, ?_, ?_, ?_, ?_⟩
  · have hmem := riskParse_canonical hvig
    have heql := riskParse_eq_lower hvig
    simpa [Customer_norm, ← heql] using hmem
  · have hmem := riskParse_canonical hl2
    have heql := riskParse_eq_lower hl2
    simpa [Customer_norm, RiskSummary_norm, ← heql] using hmem
  · have hmem := riskParse_canonical ha2
    have heql := riskParse_eq_lower ha2
    simpa [Customer_norm, RiskSummary_norm, ← heql] using hmem
  · have hmem := riskParse_canonical hm2
    have heql := riskParse_eq_lower hm2
    simpa [Customer_norm, RiskSummary_norm, ← heql] using hmem
  · have hmem := riskParse_canonical hc2
    have heql := riskParse_eq_lower hc2
    simpa [Customer_norm, RiskSummary_norm, ← heql] using hmem

/-- Witness for C2 at `sampleCustomer`: validation succeeds, yields the
normalized payload, and maps `"High"` to `"high"`. -/
theorem C2_customer_roundtrip_witness :
    CustomerResourceSchema_parse sampleCustomer = some sampleCustomerOut
    ∧ sampleCustomerOut = Customer_norm sampleCustomer
    ∧ sampleCustomerOut.vigilance_level = "high"
    ∧ sampleCustomerOut.risk_summary.location = "low" := by
  have h : CustomerResourceSchema_parse sampleCustomer = some sampleCustomerOut := by
    rfl
  exact ⟨h, (C2_customer_roundtrip_amended sampleCustomer sampleCustomerOut h).1,
    rfl, rfl⟩
